import Mathlib

/-!
# Light-client lifecycle of the relayer (`relayer/client.go`)

A shallow embedding of `CreateClients`, `UpdateClients`, `UpgradeClients`,
`FindMatchingClient`, `IsMatchingClient`, `IsMatchingConsensusState` and
`AutoUpdateClient`.

Conventions of the embedding

* A Go slice is `Option (List α)`: `none` is the nil slice, `some []` the empty
  non-nil slice. `reflect.DeepEqual` tells the two apart, and so does `=` here.
* `time.Duration` (nanoseconds) and `int64` are `Int`; `uint64` is `Nat`. The conversions the
  code performs between them are written out (`int64OfUint64`, `timeSub`).
* Every call to a collaborator (a chain query, a transaction submission, a log
  line, a clock read) appends an `Event` to the trace of the `World`, so that
  "no transaction was submitted" is a statement about the trace.
* The two chains of an operation are named by `Side`; their answers are the
  functions stored in `Chain`. An answer depends on the arguments of the call
  only, not on what was submitted earlier in the run.
* Where two collaborator calls run concurrently (the paired height queries and
  header fetches), both are made in every run; the trace lists the one on `src`
  first and, when both fail, the error of `src` is the one reported.
* The one panic of the code that depends on a collaborator's answer, the index
  `res.Logs[0]`, is a result of its own (`CreateResult.panicked`). A collaborator
  that reports no error is taken to return non-nil values.
-/

namespace Relayer

/-! ## Data model -/

/-- A Go slice: `none` is nil. -/
abbrev Slice (α : Type) := Option (List α)

/-- Go `[]byte`. -/
abbrev Bytes := Slice Nat

/-- Go `error` values. -/
abbrev Err := String

def maxDuration : Int := 2 ^ 63 - 1

def minDuration : Int := -(2 ^ 63)

/-- Go `time.Time`: the instant in nanoseconds and the location it carries.
`reflect.DeepEqual` compares both. -/
structure Time where
  nanos : Int
  loc : Nat
deriving DecidableEq, Repr

/-- Go `t.Add(d)`. -/
def Time.Add (t : Time) (d : Int) : Time := { t with nanos := t.nanos + d }

/-- Go `t.After(u)`. -/
def Time.After (t u : Time) : Bool := decide (u.nanos < t.nanos)

/-- Go `t.Sub(u)`: the difference, saturated to the range of a `time.Duration`. -/
def timeSub (t u : Time) : Int :=
  if t.nanos - u.nanos > maxDuration then maxDuration
  else if t.nanos - u.nanos < minDuration then minDuration
  else t.nanos - u.nanos

/-- The conversion `int64(x)` of a `uint64`. -/
def int64OfUint64 (n : Nat) : Int :=
  if n % 2 ^ 64 < 2 ^ 63 then ((n % 2 ^ 64 : Nat) : Int) else ((n % 2 ^ 64 : Nat) : Int) - 2 ^ 64

/-- Go `clienttypes.Height`. -/
structure Height where
  revisionNumber : Nat
  revisionHeight : Nat
deriving DecidableEq, Repr

/-- Go `clienttypes.ZeroHeight()`. -/
def ZeroHeight : Height := ⟨0, 0⟩

/-- Go `Height.IsZero`. -/
def Height.IsZero (h : Height) : Bool := h.revisionNumber == 0 && h.revisionHeight == 0

/-- Go `ibctmtypes.Fraction`. -/
structure Fraction where
  numerator : Nat
  denominator : Nat
deriving DecidableEq, Repr

/-- Go `ics23.LeafOp`. -/
structure LeafOp where
  hash : Int
  prehashKey : Int
  prehashValue : Int
  length : Int
  pfx : Bytes
deriving DecidableEq, Repr

/-- Go `ics23.InnerSpec`. -/
structure InnerSpec where
  childOrder : Slice Int
  childSize : Int
  minPrefixLength : Int
  maxPrefixLength : Int
  emptyChild : Bytes
  hash : Int
deriving DecidableEq, Repr

/-- Go `ics23.ProofSpec`; the two specs are pointers, `none` when nil. -/
structure ProofSpec where
  leafSpec : Option LeafOp
  innerSpec : Option InnerSpec
  maxDepth : Int
  minDepth : Int
deriving DecidableEq, Repr

/-- Go `ibctmtypes.ClientState`. `proofSpecs` is a slice of pointers. -/
structure ClientState where
  chainId : String
  trustLevel : Fraction
  trustingPeriod : Int
  unbondingPeriod : Int
  maxClockDrift : Int
  frozenHeight : Height
  latestHeight : Height
  proofSpecs : Slice (Option ProofSpec)
  upgradePath : Slice String
  allowUpdateAfterExpiry : Bool
  allowUpdateAfterMisbehaviour : Bool
deriving DecidableEq, Repr

/-- Go `ibctmtypes.ConsensusState`. -/
structure ConsensusState where
  timestamp : Time
  root : Bytes
  nextValidatorsHash : Bytes
deriving DecidableEq, Repr

/-- Go `ClientState.IsExpired(latestTimestamp, now)`. -/
def ClientState.IsExpired (cs : ClientState) (latestTimestamp now : Time) : Bool :=
  !(latestTimestamp.Add cs.trustingPeriod).After now

/-- Go `IsMatchingClient`: both latest heights are zeroed, then `reflect.DeepEqual`. -/
def IsMatchingClient (clientStateA clientStateB : ClientState) : Bool :=
  let clientStateA := { clientStateA with latestHeight := ZeroHeight }
  let clientStateB := { clientStateB with latestHeight := ZeroHeight }
  decide (clientStateA = clientStateB)

/-- Go `IsMatchingConsensusState`: `reflect.DeepEqual` of the two pointees. -/
def IsMatchingConsensusState (consensusStateA consensusStateB : ConsensusState) : Bool :=
  decide (consensusStateA = consensusStateB)

/-! ## Collaborators -/

/-- A packed (`Any`) client state as listed by a chain. -/
inductive AnyClientState where
  | tendermint (cs : ClientState)
  | otherVariant (typeUrl : String)
  | undecodable
deriving DecidableEq, Repr

/-- A packed (`Any`) consensus state as returned by a chain. -/
inductive AnyConsensusState where
  | tendermint (cs : ConsensusState)
  | otherVariant (typeUrl : String)
  | undecodable
deriving DecidableEq, Repr

/-- Go `clienttypes.IdentifiedClientState`. -/
structure IdentifiedClientState where
  clientId : String
  clientState : AnyClientState
deriving DecidableEq, Repr

/-- Go `tmclient.Header`, with the accessors the code uses: `Header.Height`,
`GetHeight()`, `GetHeader().GetChainID()`, `GetTime()`, the application hash,
`NextValidatorsHash` and `TrustedHeight`. -/
structure Header where
  chainID : String
  height : Int
  getHeight : Height
  time : Time
  appHash : Bytes
  nextValidatorsHash : Bytes
  trustedHeight : Height
deriving DecidableEq, Repr

/-- Go `Header.ConsensusState()`. -/
def Header.ConsensusState (h : Header) : ConsensusState :=
  { timestamp := h.time, root := h.appHash, nextValidatorsHash := h.nextValidatorsHash }

/-- An `sdk.Msg` of the client lifecycle. -/
inductive Msg where
  | createClient (clientState : ClientState) (header : Header) (signer : String)
  | updateClient (clientId : String) (header : Header) (signer : String)
  | upgradeClient (clientId : String) (clientState : AnyClientState)
      (consensusState : AnyConsensusState) (proofUpgradeClient : Bytes)
      (proofUpgradeConsensusState : Bytes) (signer : String)
deriving DecidableEq, Repr

/-- An event emitted by a transaction. -/
structure TxEvent where
  type : String
  attributes : List (String × String)
deriving DecidableEq, Repr

/-- Go `sdk.TxResponse`: the raw log and, per message, the events of `Logs[i].Events`. -/
structure TxResponse where
  rawLog : String
  logs : List (List TxEvent)
deriving DecidableEq, Repr

/-- The three results of `SendMsgs`. -/
structure SendResult where
  res : TxResponse
  success : Bool
  err : Option Err
deriving DecidableEq, Repr

/-- The two chains of an operation: `src` is the receiver `c` (or `src`),
`dst` the argument `dst`. -/
inductive Side where
  | src
  | dst
deriving DecidableEq, Repr

/-- The collaborator surface of one chain: its configuration and its answers to
the queries and submissions the lifecycle code makes. A query that reads
`PathEnd.ClientID` takes the identifier current at the time of the call. -/
structure Chain where
  chainID : String
  debug : Bool
  getTrustingPeriod : Int
  mustGetAddress : String
  queryLatestHeight : Except Err Int
  getLightSignedHeaderAtHeight : Int → Except Err Header
  getIBCUpdateHeader : Int → Except Err Header
  queryUnbondingPeriod : Except Err Int
  queryClients : Except Err (List IdentifiedClientState)
  queryConsensusStateABCI : String → Height → Except Err AnyConsensusState
  queryClientStateResponse : String → Int → Except Err AnyClientState
  queryTMClientState : String → Int → Except Err ClientState
  queryUpgradedClient : Int → Except Err (AnyClientState × Bytes)
  queryUpgradedConsState : Int → Except Err (AnyConsensusState × Bytes)
  createClient : ClientState → Header → Except Err Msg
  updateClient : String → Header → Except Err Msg
  sendMsgs : List Msg → SendResult

/-- What surrounds a call: the two chains, the clock (`now k` is the value of the
`k`-th clock read of the call), the constants `light.DefaultTrustLevel`,
`commitmenttypes.GetSDKSpecs()` and `DefaultUpgradePath`, and the helper
`ParseClientIDFromEvents`, all defined outside `client.go`. -/
structure Env where
  src : Chain
  dst : Chain
  now : Nat → Time
  defaultTrustLevel : Fraction
  sdkSpecs : Slice (Option ProofSpec)
  defaultUpgradePath : Slice String
  parseClientIDFromEvents : List TxEvent → Except Err String

def Env.chain (env : Env) : Side → Chain
  | .src => env.src
  | .dst => env.dst

/-- One observable step of a run. -/
inductive Event where
  | queryLatestHeight (side : Side)
  | getLightSignedHeaderAtHeight (side : Side) (height : Int)
  | getIBCUpdateHeader (side : Side) (height : Int)
  | queryUnbondingPeriod (side : Side)
  | queryClients (side : Side)
  | queryConsensusStateABCI (side : Side) (clientId : String) (height : Height)
  | queryClientStateResponse (side : Side) (height : Int)
  | queryTMClientState (side : Side) (height : Int)
  | queryUpgradedClient (side : Side) (height : Int)
  | queryUpgradedConsState (side : Side) (height : Int)
  | sendMsgs (side : Side) (msgs : List Msg) (success : Bool) (err : Option Err)
  | logFailedTx (side : Side)
  | log (side : Side)
  | timeNow
  | setClientID (side : Side) (clientId : String)
deriving DecidableEq, Repr

/-- The mutable state of a run: the two `PathEnd.ClientID` fields, the number of
clock reads so far, and the events so far, oldest first. -/
structure World where
  srcClientID : String
  dstClientID : String
  ticks : Nat
  trace : List Event
deriving DecidableEq, Repr

def World.clientID (w : World) : Side → String
  | .src => w.srcClientID
  | .dst => w.dstClientID

def World.emit (w : World) (e : Event) : World := { w with trace := w.trace ++ [e] }

/-- The assignment `chain.PathEnd.ClientID = clientID`. -/
def World.setClientID (w : World) (side : Side) (clientId : String) : World :=
  match side with
  | .src => { w with srcClientID := clientId, trace := w.trace ++ [.setClientID .src clientId] }
  | .dst => { w with dstClientID := clientId, trace := w.trace ++ [.setClientID .dst clientId] }

/-- Go `time.Now()`. -/
def World.timeNow (env : Env) (w : World) : Time × World :=
  (env.now w.ticks, { w with ticks := w.ticks + 1, trace := w.trace ++ [.timeNow] })

/-- A debug line: the `Log` call guarded by `chain.debug`. -/
def World.debugLog (env : Env) (w : World) (side : Side) : World :=
  if (env.chain side).debug then w.emit (.log side) else w

/-- Whether an event is a transaction submission. -/
def Event.isSendMsgs : Event → Bool
  | .sendMsgs _ _ _ _ => true
  | _ => false

/-- Whether an event is a transaction submission that failed: a broadcast error,
or a rejection (`success = false`). -/
def Event.isFailedSend : Event → Bool
  | .sendMsgs _ _ success err => !success || err.isSome
  | _ => false

/-- Whether an event is a fetch of an update header. -/
def Event.isGetIBCUpdateHeader : Event → Bool
  | .getIBCUpdateHeader _ _ => true
  | _ => false

/-- Whether an event is a write of a `PathEnd.ClientID`. -/
def Event.isSetClientID : Event → Bool
  | .setClientID _ _ => true
  | _ => false

/-- The transactions submitted in a trace. -/
def submitted (tr : List Event) : List Event := tr.filter Event.isSendMsgs

/-- Modelled from the spec: `CastClientStateToTMType` is defined outside
`client.go`. It unpacks the packed client state and yields it when it is of the
tendermint light-client variant, and an error otherwise. -/
def CastClientStateToTMType : AnyClientState → Except Err ClientState
  | .tendermint cs => .ok cs
  | .otherVariant _ => .error "error when casting exported clientstate to tendermint type"
  | .undecodable => .error "cannot unpack client state"

/-- Go `FindMatchingClient`, the loop over `clientsResp.ClientStates`. -/
def findMatchingLoop (env : Env) (source counterparty : Side) (clientState : ClientState) :
    List IdentifiedClientState → World → (String × Bool) × World
  | [], w => (("", false), w)
  | identifiedClientState :: rest, w =>
    match CastClientStateToTMType identifiedClientState.clientState with
    | .error _ => (("", false), w)
    | .ok existingClientState =>
      if IsMatchingClient clientState existingClientState
          && existingClientState.frozenHeight.IsZero then
        let w := w.emit (.queryConsensusStateABCI source identifiedClientState.clientId
          existingClientState.latestHeight)
        match (env.chain source).queryConsensusStateABCI identifiedClientState.clientId
            existingClientState.latestHeight with
        | .error _ => findMatchingLoop env source counterparty clientState rest (w.debugLog env source)
        | .ok consensusStateResp =>
          let height := int64OfUint64 existingClientState.latestHeight.revisionHeight
          let w := w.emit (.getLightSignedHeaderAtHeight counterparty height)
          match (env.chain counterparty).getLightSignedHeaderAtHeight height with
          | .error _ =>
            findMatchingLoop env source counterparty clientState rest (w.debugLog env source)
          | .ok header =>
            match consensusStateResp with
            | .undecodable =>
              findMatchingLoop env source counterparty clientState rest (w.debugLog env source)
            | .otherVariant _ =>
              findMatchingLoop env source counterparty clientState rest (w.debugLog env source)
            | .tendermint existingConsensusState =>
              let (now, w) := w.timeNow env
              if existingClientState.IsExpired existingConsensusState.timestamp now then
                findMatchingLoop env source counterparty clientState rest w
              else if IsMatchingConsensusState existingConsensusState header.ConsensusState then
                ((identifiedClientState.clientId, true), w)
              else
                findMatchingLoop env source counterparty clientState rest w
      else
        findMatchingLoop env source counterparty clientState rest w

/-- Go `FindMatchingClient(source, counterparty, clientState)`. -/
def FindMatchingClient (env : Env) (source counterparty : Side) (clientState : ClientState)
    (w : World) : (String × Bool) × World :=
  let w := w.emit (.queryClients source)
  match (env.chain source).queryClients with
  | .error _ => (("", false), w.debugLog env source)
  | .ok clientsResp => findMatchingLoop env source counterparty clientState clientsResp w

/-- The events a scan of `FindMatchingClient` can emit: its queries, its debug
lines and its clock reads. -/
def Event.isScan : Event → Bool
  | .queryClients _ => true
  | .queryConsensusStateABCI _ _ _ => true
  | .getLightSignedHeaderAtHeight _ _ => true
  | .log _ => true
  | .timeNow => true
  | _ => false

/-- Whether an event is a `QueryClients` call, the first step of every
`FindMatchingClient`. -/
def Event.isQueryClients : Event → Bool
  | .queryClients _ => true
  | _ => false

/-- The failed transaction submissions in a trace. -/
def failedSends (tr : List Event) : List Event := tr.filter Event.isFailedSend

/-- The writes of a `PathEnd.ClientID` in a trace. -/
def writes (tr : List Event) : List Event := tr.filter Event.isSetClientID

/-- The `QueryClients` calls in a trace, one per call of `FindMatchingClient`. -/
def clientScans (tr : List Event) : List Event := tr.filter Event.isQueryClients

/-- The events that are neither a transaction submission nor a write of a
`PathEnd.ClientID`. -/
def Event.isQuiet : Event → Bool
  | .sendMsgs _ _ _ _ => false
  | .setClientID _ _ => false
  | _ => true

/-- World `w2` is reached from `w` by events of kind `q` only, the identifiers untouched. -/
def Extends (q : Event → Bool) (w w2 : World) : Prop :=
  w2.srcClientID = w.srcClientID ∧ w2.dstClientID = w.dstClientID ∧
    ∃ added : List Event, w2.trace = w.trace ++ added ∧ ∀ e ∈ added, q e = true

/-- The world at the start of a run: the two configured identifiers, no event. -/
def World.init (srcClientID dstClientID : String) : World :=
  { srcClientID := srcClientID, dstClientID := dstClientID, ticks := 0, trace := [] }

/-! ## The lifecycle operations -/

/-- Modelled from the spec: `QueryLatestHeights` is defined outside `client.go`.
It fetches both chains' latest heights concurrently and fails when either query
fails. Both queries are started in every run; the order of the two events in the
trace, and which error is reported when both fail, are fixed here as `src` first. -/
def QueryLatestHeights (env : Env) (w : World) : Except Err (Int × Int) × World :=
  let w := (w.emit (.queryLatestHeight .src)).emit (.queryLatestHeight .dst)
  match env.src.queryLatestHeight with
  | .error e => (.error e, w)
  | .ok srch =>
    match env.dst.queryLatestHeight with
    | .error e => (.error e, w)
    | .ok dsth => (.ok (srch, dsth), w)

/-- The two concurrent `GetLightSignedHeaderAtHeight` calls joined by `eg.Wait()`.
Both run in every call; trace order and error choice are fixed as `src` first. -/
def fetchSignedHeaders (env : Env) (srch dsth : Int) (w : World) :
    Except Err (Header × Header) × World :=
  let w := (w.emit (.getLightSignedHeaderAtHeight .src srch)).emit
    (.getLightSignedHeaderAtHeight .dst dsth)
  match env.src.getLightSignedHeaderAtHeight srch with
  | .error e => (.error e, w)
  | .ok srcUpdateHeader =>
    match env.dst.getLightSignedHeaderAtHeight dsth with
    | .error e => (.error e, w)
    | .ok dstUpdateHeader => (.ok (srcUpdateHeader, dstUpdateHeader), w)

/-- Go `ibctmtypes.NewClientState`: the frozen height of a new client state is zero. -/
def NewClientState (chainID : String) (trustLevel : Fraction)
    (trustingPeriod ubdPeriod maxClockDrift : Int) (latestHeight : Height)
    (specs : Slice (Option ProofSpec)) (upgradePath : Slice String)
    (allowUpdateAfterExpiry allowUpdateAfterMisbehaviour : Bool) : ClientState :=
  { chainId := chainID, trustLevel := trustLevel, trustingPeriod := trustingPeriod,
    unbondingPeriod := ubdPeriod, maxClockDrift := maxClockDrift,
    frozenHeight := ZeroHeight, latestHeight := latestHeight, proofSpecs := specs,
    upgradePath := upgradePath, allowUpdateAfterExpiry := allowUpdateAfterExpiry,
    allowUpdateAfterMisbehaviour := allowUpdateAfterMisbehaviour }

/-- Go `time.Minute * 10` in nanoseconds. -/
def tenMinutes : Int := 600000000000

/-- The client state a block of `CreateClients` builds for the chain `other`
(lines 56-67 and 130-141): the counterparty's chain id and height from its
header, the default trust level, the counterparty's trusting period, its
unbonding period as queried, ten minutes of clock drift, the SDK proof specs and
the default upgrade path. -/
def candidateState (env : Env) (other : Side) (otherHeader : Header) (ubdPeriod : Int)
    (allowUpdateAfterExpiry allowUpdateAfterMisbehaviour : Bool) : ClientState :=
  NewClientState otherHeader.chainID env.defaultTrustLevel
    (env.chain other).getTrustingPeriod ubdPeriod tenMinutes otherHeader.getHeight
    env.sdkSpecs env.defaultUpgradePath allowUpdateAfterExpiry allowUpdateAfterMisbehaviour

/-- How a call of `CreateClients` ends: it returns `(modified, err)`, or it
panics at `res.Logs[0]` when the response of an accepted transaction has no logs. -/
inductive CreateResult where
  | returned (modified : Bool) (err : Option Err)
  | panicked
deriving DecidableEq, Repr

/-- The result of one of the two blocks of `CreateClients`: the function has
ended, or control goes on with the current value of `modified`. -/
inductive Step where
  | done (r : CreateResult)
  | next (modified : Bool)
deriving DecidableEq, Repr

/-- One direction of `CreateClients`: the block `if c.PathEnd.ClientID == ""` (lines
46-118, `self = src`, `other = dst`) and the block `if dst.PathEnd.ClientID == ""`
(lines 121-194, `self = dst`, `other = src`). The source writes the block twice;
the two copies differ only in the roles of the chains, except that the debug line
"identifier exists" is written with `c` in both, which is kept here. -/
def createClientOn (env : Env) (self other : Side) (selfHeader otherHeader : Header)
    (allowUpdateAfterExpiry allowUpdateAfterMisbehaviour override : Bool)
    (modified : Bool) (w : World) : Step × World :=
  if w.clientID self = "" then
    let w := w.debugLog env self
    let w := w.emit (.queryUnbondingPeriod other)
    match (env.chain other).queryUnbondingPeriod with
    | .error e => (.done (.returned modified (some e)), w)
    | .ok ubdPeriod =>
      let clientState := candidateState env other otherHeader ubdPeriod allowUpdateAfterExpiry
          allowUpdateAfterMisbehaviour
      let found := if !override then FindMatchingClient env self other clientState w
        else (("", false), w)
      let w := found.2
      if !found.1.2 || override then
        match (env.chain self).createClient clientState otherHeader with
        | .error e => (.done (.returned modified (some e)), w)
        | .ok createMsg =>
          let msgs := [createMsg]
          let r := (env.chain self).sendMsgs msgs
          let w := w.emit (.sendMsgs self msgs r.success r.err)
          match r.err with
          | some e => (.done (.returned modified (some e)), w.emit (.logFailedTx self))
          | none =>
            if !r.success then
              (.done (.returned modified (some ("tx failed: " ++ r.res.rawLog))),
                w.emit (.logFailedTx self))
            else
              match r.res.logs with
              | [] => (.done .panicked, w)
              | events :: _ =>
                match env.parseClientIDFromEvents events with
                | .error e => (.done (.returned modified (some e)), w)
                | .ok clientID => (.next true, w.setClientID self clientID)
      else
        let w := w.debugLog env .src
        (.next true, w.setClientID self found.1.1)
  else
    let w := w.emit (.queryClientStateResponse self selfHeader.height)
    match (env.chain self).queryClientStateResponse (w.clientID self) selfHeader.height with
    | .error e =>
      (.done (.returned false (some ("please ensure provided on-chain client exists: " ++ e))), w)
    | .ok _ => (.next modified, w)

/-- What one block of `CreateClients` guarantees about its result `r`, started in
`w` with the flag `modified`: the other chain's identifier is untouched; going on
with a flag that is not `true` means nothing was submitted or written; no block
ends the call with a nil error; an error return writes no identifier and carries
the current flag, or `false` from the existence check of a configured client. -/
def StepSummary (self : Side) (modified : Bool) (w : World) (r : Step × World) : Prop :=
  (∀ s, s ≠ self → r.2.clientID s = w.clientID s) ∧
  match r.1 with
  | .next m => failedSends r.2.trace = failedSends w.trace ∧
      (m = true ∨ (m = modified ∧ writes r.2.trace = writes w.trace ∧
        submitted r.2.trace = submitted w.trace))
  | .done (.returned _ none) => False
  | .done (.returned m (some _)) => writes r.2.trace = writes w.trace ∧
      (m = modified ∨ (m = false ∧ w.clientID self ≠ ""))
  | .done .panicked => failedSends r.2.trace = failedSends w.trace ∧
      writes r.2.trace = writes w.trace

/-- Go `CreateClients(dst, allowUpdateAfterExpiry, allowUpdateAfterMisbehaviour, override)`. -/
def CreateClients (env : Env)
    (allowUpdateAfterExpiry allowUpdateAfterMisbehaviour override : Bool) (w : World) :
    CreateResult × World :=
  match QueryLatestHeights env w with
  | (.error e, w) => (.returned false (some e), w)
  | (.ok (srch, dsth), w) =>
    match fetchSignedHeaders env srch dsth w with
    | (.error e, w) => (.returned false (some e), w)
    | (.ok (srcUpdateHeader, dstUpdateHeader), w) =>
      match createClientOn env .src .dst srcUpdateHeader dstUpdateHeader
          allowUpdateAfterExpiry allowUpdateAfterMisbehaviour override false w with
      | (.done r, w) => (r, w)
      | (.next modified, w) =>
        match createClientOn env .dst .src dstUpdateHeader srcUpdateHeader
            allowUpdateAfterExpiry allowUpdateAfterMisbehaviour override modified w with
        | (.done r, w) => (r, w)
        | (.next modified, w) => (.returned modified none, w.emit (.log .src))

/-- What a call of `CreateClients` started in `w` guarantees about its result
`r`: a nil error or a panic means no submission failed, and a flag other than
`true` is returned only when nothing was written, or from the failed existence
check of a configured destination client. -/
def RunSummary (w : World) (r : CreateResult × World) : Prop :=
  match r.1 with
  | .returned m none => failedSends r.2.trace = failedSends w.trace ∧
      (m = true ∨ (writes r.2.trace = writes w.trace ∧ submitted r.2.trace = submitted w.trace))
  | .returned m (some _) => m = true ∨ writes r.2.trace = writes w.trace ∨
      (m = false ∧ w.dstClientID ≠ "")
  | .panicked => failedSends r.2.trace = failedSends w.trace

/-- Whether an event is a transaction submission that failed to broadcast. -/
def Event.isFailedBroadcast : Event → Bool
  | .sendMsgs _ _ _ err => err.isSome
  | _ => false

/-- Go `RelayMsgs`: the batch of messages of the two directions. -/
structure RelayMsgs where
  Src : List Msg
  Dst : List Msg
  Succeeded : Bool
deriving DecidableEq, Repr

/-- Modelled from the spec: `RelayMsgs.Ready` is defined outside `client.go`. The
batch is ready when both directions have a message. -/
def RelayMsgs.Ready (r : RelayMsgs) : Bool := !r.Src.isEmpty && !r.Dst.isEmpty

/-- Modelled from the spec: one submission of `RelayMsgs.Send`, a single blocking
`SendMsgs` call whose failure (broadcast error or rejection) is logged through the
failed-tx path. -/
def sendBatchOn (env : Env) (side : Side) (msgs : List Msg) (w : World) : Bool × World :=
  let r := (env.chain side).sendMsgs msgs
  let w := w.emit (.sendMsgs side msgs r.success r.err)
  if r.err.isSome || !r.success then (false, w.emit (.logFailedTx side)) else (true, w)

/-- Modelled from the spec: `RelayMsgs.Send` is defined outside `client.go`. It
submits the messages of each direction on its chain; the batch succeeded when both
submissions succeeded. -/
def RelayMsgs.Send (env : Env) (r : RelayMsgs) (w : World) : RelayMsgs × World :=
  let s := sendBatchOn env .src r.Src w
  let d := sendBatchOn env .dst r.Dst s.2
  ({ r with Succeeded := s.1 && d.1 }, d.2)

/-- Modelled from the spec: `RelayMsgs.Success`, the success predicate of the batch. -/
def RelayMsgs.Success (r : RelayMsgs) : Bool := r.Succeeded

/-- Go `UpdateClients(dst)`; the result is the returned `error`. -/
def UpdateClients (env : Env) (w : World) : Option Err × World :=
  let clients : RelayMsgs := { Src := [], Dst := [], Succeeded := false }
  match QueryLatestHeights env w with
  | (.error e, w) => (some e, w)
  | (.ok (srch, dsth), w) =>
    match fetchSignedHeaders env srch dsth w with
    | (.error e, w) => (some e, w)
    | (.ok (srcUpdateHeader, dstUpdateHeader), w) =>
      match env.src.updateClient w.srcClientID dstUpdateHeader with
      | .error e => (some e, w)
      | .ok srcUpdateMsg =>
        match env.dst.updateClient w.dstClientID srcUpdateHeader with
        | .error e => (some e, w)
        | .ok dstUpdateMsg =>
          let clients := { clients with Src := clients.Src ++ [srcUpdateMsg] }
          let clients := { clients with Dst := clients.Dst ++ [dstUpdateMsg] }
          if clients.Ready then
            let sent := clients.Send env w
            if sent.1.Success then (none, sent.2.emit (.log .src)) else (none, sent.2)
          else (none, w)

/-- Go `UpgradeClients(dst, height)`; the result is the returned `error`. -/
def UpgradeClients (env : Env) (height : Int) (w : World) : Option Err × World :=
  let w := w.emit (.getLightSignedHeaderAtHeight .dst height)
  match env.dst.getLightSignedHeaderAtHeight height with
  | .error e => (some e, w)
  | .ok dstHeader =>
    match env.src.updateClient w.srcClientID dstHeader with
    | .error e => (some e, w)
    | .ok updateMsg =>
      let resolved : Except Err Int × World :=
        if height = 0 then (env.dst.queryLatestHeight, w.emit (.queryLatestHeight .dst))
        else (.ok height, w)
      match resolved with
      | (.error e, w) => (some e, w)
      | (.ok height, w) =>
        let w := w.emit (.queryUpgradedClient .dst height)
        match env.dst.queryUpgradedClient height with
        | .error e => (some e, w)
        | .ok (clientState, proofUpgradeClient) =>
          let w := w.emit (.queryUpgradedConsState .dst height)
          match env.dst.queryUpgradedConsState height with
          | .error e => (some e, w)
          | .ok (consensusState, proofUpgradeConsensusState) =>
            let upgradeMsg := Msg.upgradeClient w.srcClientID clientState consensusState
              proofUpgradeClient proofUpgradeConsensusState env.src.mustGetAddress
            let msgs := [updateMsg, upgradeMsg]
            let r := env.src.sendMsgs msgs
            let w := w.emit (.sendMsgs .src msgs r.success r.err)
            match r.err with
            | some e => (some e, w.emit (.logFailedTx .src))
            | none => (none, w)

/-- Go `AutoUpdateClient(src, dst, thresholdTime)`; the result is the returned pair
`(time.Duration, error)`. -/
def AutoUpdateClient (env : Env) (thresholdTime : Int) (w : World) :
    (Int × Option Err) × World :=
  match QueryLatestHeights env w with
  | (.error e, w) => ((0, some e), w)
  | (.ok (srch, dsth), w) =>
    let w := w.emit (.queryTMClientState .src srch)
    match env.src.queryTMClientState w.srcClientID srch with
    | .error e => ((0, some e), w)
    | .ok clientState =>
      if clientState.trustingPeriod ≤ thresholdTime then
        ((0, some "client trusting period time is less than or equal to threshold time"), w)
      else
        let w := w.emit (.queryConsensusStateABCI .src w.srcClientID clientState.latestHeight)
        match env.src.queryConsensusStateABCI w.srcClientID clientState.latestHeight with
        | .error e => ((0, some e), w)
        | .ok .undecodable => ((0, some "cannot unpack consensus state"), w)
        | .ok (.otherVariant _) => ((0, some "consensus state is not IBC tendermint type"), w)
        | .ok (.tendermint consensusState) =>
          let expirationTime := consensusState.timestamp.Add clientState.trustingPeriod
          let t := w.timeNow env
          let timeToExpiry := timeSub expirationTime t.1
          let w := t.2
          if timeToExpiry > thresholdTime then ((timeToExpiry, none), w)
          else
            let t := w.timeNow env
            let w := t.2
            if clientState.IsExpired consensusState.timestamp t.1 then
              ((0, some "client is already expired on chain"), w)
            else
              let w := w.emit (.getIBCUpdateHeader .src srch)
              match env.src.getIBCUpdateHeader srch with
              | .error e => ((0, some e), w)
              | .ok _srcUpdateHeader =>
                let w := w.emit (.getIBCUpdateHeader .dst dsth)
                match env.dst.getIBCUpdateHeader dsth with
                | .error e => ((0, some e), w)
                | .ok dstUpdateHeader =>
                  match env.src.updateClient w.srcClientID dstUpdateHeader with
                  | .error e => ((0, some e), w)
                  | .ok updateMsg =>
                    let msgs := [updateMsg]
                    let r := env.src.sendMsgs msgs
                    let w := w.emit (.sendMsgs .src msgs r.success r.err)
                    match r.err with
                    | some e => ((0, some e), w.emit (.logFailedTx .src))
                    | none =>
                      if !r.success then ((0, some ("tx failed: " ++ r.res.rawLog)), w)
                      else ((clientState.trustingPeriod, none), w.emit (.log .src))

/-! ## Example inputs -/

/-- A reading of `ParseClientIDFromEvents` for the examples: the value of the
attribute `client_id` of the first `create_client` event. -/
def exampleParse : List TxEvent → Except Err String
  | [] => .error "client identifier event attribute not found"
  | ev :: rest =>
    if ev.type = "create_client" then
      match ev.attributes.find? (fun a => a.1 == "client_id") with
      | some a => .ok a.2
      | none => exampleParse rest
    else exampleParse rest

/-- The candidate client state of the examples. -/
def exampleCandidate : ClientState :=
  NewClientState "chain-b" ⟨1, 3⟩ 1000 2000 tenMinutes ⟨0, 9⟩ none none true true

/-- An existing client state that differs from the candidate in its latest height. -/
def exampleExisting : ClientState := { exampleCandidate with latestHeight := ⟨0, 5⟩ }

def exampleHeader : Header :=
  { chainID := "chain-b", height := 5, getHeight := ⟨0, 9⟩, time := ⟨100, 0⟩,
    appHash := some [1], nextValidatorsHash := some [2], trustedHeight := ⟨0, 0⟩ }

def exampleResponse : TxResponse :=
  { rawLog := "", logs := [[⟨"create_client", [("client_id", "07-tendermint-9")]⟩]] }

/-- A chain on which every query and every submission succeeds and no client is
listed. -/
def exampleChain : Chain :=
  { chainID := "chain-b", debug := false, getTrustingPeriod := 1000, mustGetAddress := "relayer",
    queryLatestHeight := .ok 5,
    getLightSignedHeaderAtHeight := fun _ => .ok exampleHeader,
    getIBCUpdateHeader := fun _ => .ok exampleHeader,
    queryUnbondingPeriod := .ok 2000,
    queryClients := .ok [],
    queryConsensusStateABCI := fun _ _ => .ok (.tendermint exampleHeader.ConsensusState),
    queryClientStateResponse := fun _ _ => .ok (.tendermint exampleExisting),
    queryTMClientState := fun _ _ => .ok exampleExisting,
    queryUpgradedClient := fun _ => .ok (.tendermint exampleExisting, some [3]),
    queryUpgradedConsState := fun _ => .ok (.tendermint exampleHeader.ConsensusState, some [4]),
    createClient := fun cs h => .ok (.createClient cs h "relayer"),
    updateClient := fun id h => .ok (.updateClient id h "relayer"),
    sendMsgs := fun _ => ⟨exampleResponse, true, none⟩ }

/-- The first listed client fails its consensus-state query, the second matches
the candidate in full. -/
def chainSecondMatches : Chain :=
  { exampleChain with
    queryClients := .ok [⟨"07-tendermint-0", .tendermint exampleExisting⟩,
      ⟨"07-tendermint-1", .tendermint exampleExisting⟩],
    queryConsensusStateABCI := fun id _ =>
      if id = "07-tendermint-1" then .ok (.tendermint exampleHeader.ConsensusState)
      else .error "consensus state not found" }

/-- The first listed client is of another light-client variant, the second
matches the candidate in full. -/
def chainOtherVariantFirst : Chain :=
  { exampleChain with
    queryClients := .ok [⟨"06-solomachine-0", .otherVariant "solomachine"⟩,
      ⟨"07-tendermint-1", .tendermint exampleExisting⟩] }

/-- The second client of `chainOtherVariantFirst` listed alone. -/
def chainOnlyMatch : Chain :=
  { exampleChain with
    queryClients := .ok [⟨"07-tendermint-1", .tendermint exampleExisting⟩] }

/-- The counterparty's latest height is 7. -/
def chainLatestSeven : Chain := { exampleChain with queryLatestHeight := .ok 7 }

/-- A chain whose every submission fails to broadcast. -/
def chainBroadcastFails : Chain :=
  { exampleChain with sendMsgs := fun _ => ⟨⟨"", []⟩, false, some "broadcast failed"⟩ }

/-- A chain whose every submission is broadcast and rejected on-chain. -/
def chainRejects : Chain :=
  { exampleChain with sendMsgs := fun _ => ⟨⟨"out of gas", []⟩, false, none⟩ }

/-- A chain on which the existence check of a configured client fails. -/
def chainClientMissing : Chain :=
  { exampleChain with queryClientStateResponse := fun _ _ => .error "client not found" }

/-- A chain on which the create-client message cannot be built. -/
def chainCreateFails : Chain :=
  { exampleChain with createClient := fun _ _ => .error "cannot build message" }

/-- An environment around two chains, the clock standing at 500. -/
def exampleEnv (src dst : Chain) : Env :=
  { src := src, dst := dst, now := fun _ => ⟨500, 0⟩, defaultTrustLevel := ⟨1, 3⟩,
    sdkSpecs := none, defaultUpgradePath := none, parseClientIDFromEvents := exampleParse }

/-- The environment of the examples with the clock standing at 1500, after the
expiry (at 1100) of the consensus state of the examples. -/
def lateEnv (src dst : Chain) : Env := { exampleEnv src dst with now := fun _ => ⟨1500, 0⟩ }

/-! ## Theorems -/

/-- C1: `IsMatchingClient a b` is true exactly when `a` and `b` agree on every
field other than `LatestHeight`. -/
theorem IsMatchingClient_iff (a b : ClientState) :
    IsMatchingClient a b = true ↔
      (a.chainId = b.chainId ∧ a.trustLevel = b.trustLevel ∧
       a.trustingPeriod = b.trustingPeriod ∧ a.unbondingPeriod = b.unbondingPeriod ∧
       a.maxClockDrift = b.maxClockDrift ∧ a.frozenHeight = b.frozenHeight ∧
       a.proofSpecs = b.proofSpecs ∧ a.upgradePath = b.upgradePath ∧
       a.allowUpdateAfterExpiry = b.allowUpdateAfterExpiry ∧
       a.allowUpdateAfterMisbehaviour = b.allowUpdateAfterMisbehaviour) := by
  cases a
  cases b
  simp only [IsMatchingClient, decide_eq_true_eq, ClientState.mk.injEq, true_and]

/-! ### Frame of the scan -/

theorem Extends.refl (q : Event → Bool) (w : World) : Extends q w w :=
  ⟨rfl, rfl, [], by simp, by simp⟩

theorem Extends.trans {q : Event → Bool} {w1 w2 w3 : World} (h12 : Extends q w1 w2)
    (h23 : Extends q w2 w3) : Extends q w1 w3 := by
  obtain ⟨hs, hd, a, ha, hp⟩ := h12
  obtain ⟨hs2, hd2, b, hb, hq⟩ := h23
  refine ⟨hs2.trans hs, hd2.trans hd, a ++ b, ?_, ?_⟩
  · rw [hb, ha, List.append_assoc]
  · intro e he
    rcases List.mem_append.mp he with h | h
    · exact hp e h
    · exact hq e h

theorem Extends.mono {q q2 : Event → Bool} {w w2 : World} (h : Extends q w w2)
    (hq : ∀ e, q e = true → q2 e = true) : Extends q2 w w2 := by
  obtain ⟨hs, hd, a, ha, hp⟩ := h
  exact ⟨hs, hd, a, ha, fun e he => hq e (hp e he)⟩

theorem Extends.emit (q : Event → Bool) (w : World) (e : Event) (he : q e = true) :
    Extends q w (w.emit e) :=
  ⟨rfl, rfl, [e], rfl, by simpa using he⟩

theorem Extends.debugLog (q : Event → Bool) (env : Env) (w : World) (side : Side)
    (hq : q (.log side) = true) : Extends q w (w.debugLog env side) := by
  unfold World.debugLog
  split
  · exact Extends.emit q w _ hq
  · exact Extends.refl q w

theorem Extends.timeNow (q : Event → Bool) (env : Env) (w : World) (hq : q .timeNow = true) :
    Extends q w (w.timeNow env).2 :=
  ⟨rfl, rfl, [.timeNow], rfl, by simpa using hq⟩

theorem Extends.filter_eq {q : Event → Bool} {w w2 : World} (h : Extends q w w2)
    (p : Event → Bool) (hp : ∀ e, q e = true → p e = false) :
    w2.trace.filter p = w.trace.filter p := by
  obtain ⟨_, _, a, ha, hs⟩ := h
  rw [ha, List.filter_append]
  have : a.filter p = [] := by
    rw [List.filter_eq_nil_iff]
    intro e he
    simp [hp e (hs e he)]
  rw [this, List.append_nil]

theorem Extends.clientID {q : Event → Bool} {w w2 : World} (h : Extends q w w2) (side : Side) :
    w2.clientID side = w.clientID side := by
  cases side
  · exact h.1
  · exact h.2.1

theorem isQuiet_of_isScan (e : Event) (h : e.isScan = true) : e.isQuiet = true := by
  cases e <;> simp_all [Event.isScan, Event.isQuiet]

theorem isSendMsgs_of_isQuiet (e : Event) (h : e.isQuiet = true) : e.isSendMsgs = false := by
  cases e <;> simp_all [Event.isSendMsgs, Event.isQuiet]

theorem isFailedSend_of_isQuiet (e : Event) (h : e.isQuiet = true) :
    e.isFailedSend = false := by
  cases e <;> simp_all [Event.isFailedSend, Event.isQuiet]

theorem isSetClientID_of_isQuiet (e : Event) (h : e.isQuiet = true) :
    e.isSetClientID = false := by
  cases e <;> simp_all [Event.isSetClientID, Event.isQuiet]

theorem findMatchingLoop_scanned (env : Env) (source counterparty : Side)
    (clientState : ClientState) :
    ∀ (clients : List IdentifiedClientState) (w : World),
      Extends Event.isScan w (findMatchingLoop env source counterparty clientState clients w).2 := by
  intro clients
  induction clients with
  | nil =>
    intro w
    simp only [findMatchingLoop]
    exact Extends.refl _ w
  | cons c rest ih =>
    intro w
    obtain ⟨cid, cstate⟩ := c
    unfold findMatchingLoop
    cases cstate with
    | otherVariant u => exact Extends.refl _ w
    | undecodable => exact Extends.refl _ w
    | tendermint ecs =>
      simp only [CastClientStateToTMType]
      by_cases hm : (IsMatchingClient clientState ecs && ecs.frozenHeight.IsZero) = true
      · rw [if_pos hm]
        have h1 := Extends.emit Event.isScan w (.queryConsensusStateABCI source cid ecs.latestHeight) rfl
        have h2 := h1.trans (Extends.emit _ _ (.getLightSignedHeaderAtHeight counterparty
          (int64OfUint64 ecs.latestHeight.revisionHeight)) rfl)
        cases hq : (env.chain source).queryConsensusStateABCI cid ecs.latestHeight with
        | error e => exact h1.trans ((Extends.debugLog _ env _ source rfl).trans (ih _))
        | ok resp =>
          cases hh : (env.chain counterparty).getLightSignedHeaderAtHeight
              (int64OfUint64 ecs.latestHeight.revisionHeight) with
          | error e => exact h2.trans ((Extends.debugLog _ env _ source rfl).trans (ih _))
          | ok header =>
            cases resp with
            | undecodable => exact h2.trans ((Extends.debugLog _ env _ source rfl).trans (ih _))
            | otherVariant u => exact h2.trans ((Extends.debugLog _ env _ source rfl).trans (ih _))
            | tendermint cons =>
              have h3 := h2.trans (Extends.timeNow _ env _ rfl)
              simp only []
              split
              · exact h3.trans (ih _)
              · split
                · exact h3
                · exact h3.trans (ih _)
      · rw [if_neg hm]
        exact ih _

theorem FindMatchingClient_scanned (env : Env) (source counterparty : Side)
    (clientState : ClientState) (w : World) :
    Extends Event.isScan w (FindMatchingClient env source counterparty clientState w).2 := by
  unfold FindMatchingClient
  have h1 := Extends.emit Event.isScan w (.queryClients source) rfl
  split
  · exact h1.trans (Extends.debugLog _ env _ source rfl)
  · exact h1.trans (findMatchingLoop_scanned env source counterparty clientState _ _)

theorem ticks_debugLog (env : Env) (w : World) (side : Side) :
    (w.debugLog env side).ticks = w.ticks := by
  unfold World.debugLog
  split <;> rfl

/-- One listed tendermint client: either it passes every check, its expiry being
tested against the clock read made for it, and the scan returns it at once; or
the scan goes on with the clients after it, the clock not set back. -/
theorem findMatchingLoop_step (env : Env) (source counterparty : Side)
    (clientState : ClientState) (cid : String) (ecs : ClientState)
    (rest : List IdentifiedClientState) (w : World) :
    (∃ (cons : ConsensusState) (header : Header) (w2 : World),
      findMatchingLoop env source counterparty clientState (⟨cid, .tendermint ecs⟩ :: rest) w
        = ((cid, true), w2) ∧
      w2.ticks = w.ticks + 1 ∧
      w2.trace.getLast? = some .timeNow ∧
      ecs.frozenHeight.IsZero = true ∧
      IsMatchingClient clientState ecs = true ∧
      (env.chain source).queryConsensusStateABCI cid ecs.latestHeight
        = .ok (.tendermint cons) ∧
      (env.chain counterparty).getLightSignedHeaderAtHeight
        (int64OfUint64 ecs.latestHeight.revisionHeight) = .ok header ∧
      ecs.IsExpired cons.timestamp (env.now w.ticks) = false ∧
      cons = header.ConsensusState) ∨
    (∃ w2, findMatchingLoop env source counterparty clientState (⟨cid, .tendermint ecs⟩ :: rest) w
        = findMatchingLoop env source counterparty clientState rest w2 ∧
      w.ticks ≤ w2.ticks) := by
  simp only [findMatchingLoop, CastClientStateToTMType]
  by_cases hm : (IsMatchingClient clientState ecs && ecs.frozenHeight.IsZero) = true
  · simp only [hm, if_true]
    simp only [Bool.and_eq_true] at hm
    cases hq : (env.chain source).queryConsensusStateABCI cid ecs.latestHeight with
    | error e => exact Or.inr ⟨_, rfl, by rw [ticks_debugLog]; exact Nat.le_refl _⟩
    | ok resp =>
      cases hh : (env.chain counterparty).getLightSignedHeaderAtHeight
          (int64OfUint64 ecs.latestHeight.revisionHeight) with
      | error e => exact Or.inr ⟨_, rfl, by rw [ticks_debugLog]; exact Nat.le_refl _⟩
      | ok header =>
        cases resp with
        | undecodable => exact Or.inr ⟨_, rfl, by rw [ticks_debugLog]; exact Nat.le_refl _⟩
        | otherVariant u => exact Or.inr ⟨_, rfl, by rw [ticks_debugLog]; exact Nat.le_refl _⟩
        | tendermint cons =>
          simp only []
          by_cases hexp : ecs.IsExpired cons.timestamp (env.now w.ticks) = true
          · refine Or.inr ⟨(World.timeNow env ((w.emit (.queryConsensusStateABCI source cid ecs.latestHeight)).emit
                (.getLightSignedHeaderAtHeight counterparty
                  (int64OfUint64 ecs.latestHeight.revisionHeight)))).2, ?_, Nat.le_succ w.ticks⟩
            simp only [World.timeNow, World.emit, hexp, if_true]
          · by_cases hc : IsMatchingConsensusState cons header.ConsensusState = true
            · refine Or.inl ⟨cons, header, (World.timeNow env ((w.emit (.queryConsensusStateABCI source cid ecs.latestHeight)).emit
                (.getLightSignedHeaderAtHeight counterparty
                  (int64OfUint64 ecs.latestHeight.revisionHeight)))).2, ?_, ?_, ?_, hm.2, hm.1, rfl, rfl,
                Bool.eq_false_iff.mpr hexp, ?_⟩
              · simp only [World.timeNow, World.emit, hexp, hc, if_true, Bool.false_eq_true,
                  if_false]
              · rfl
              · simp [World.timeNow]
              · simpa [IsMatchingConsensusState] using hc
            · refine Or.inr ⟨(World.timeNow env ((w.emit (.queryConsensusStateABCI source cid ecs.latestHeight)).emit
                (.getLightSignedHeaderAtHeight counterparty
                  (int64OfUint64 ecs.latestHeight.revisionHeight)))).2, ?_, Nat.le_succ w.ticks⟩
              simp only [World.timeNow, World.emit, hexp, hc, Bool.false_eq_true, if_false]
  · simp only [hm, Bool.false_eq_true, if_false]
    exact Or.inr ⟨_, rfl, Nat.le_refl _⟩

/-- Soundness of the scan loop: an identifier returned with `found = true` is
that of a listed tendermint client that passed every check, its expiry tested
against the last clock read of the scan. -/
theorem findMatchingLoop_sound (env : Env) (source counterparty : Side)
    (clientState : ClientState) (id : String) :
    ∀ (clients : List IdentifiedClientState) (w : World),
      (findMatchingLoop env source counterparty clientState clients w).1 = (id, true) →
      ∃ (existing : ClientState) (cons : ConsensusState) (header : Header) (k : Nat),
        (⟨id, .tendermint existing⟩ : IdentifiedClientState) ∈ clients ∧
        existing.frozenHeight.IsZero = true ∧
        IsMatchingClient clientState existing = true ∧
        (env.chain source).queryConsensusStateABCI id existing.latestHeight
          = .ok (.tendermint cons) ∧
        (env.chain counterparty).getLightSignedHeaderAtHeight
          (int64OfUint64 existing.latestHeight.revisionHeight) = .ok header ∧
        w.ticks ≤ k ∧
        (findMatchingLoop env source counterparty clientState clients w).2.ticks = k + 1 ∧
        (findMatchingLoop env source counterparty clientState clients w).2.trace.getLast?
          = some .timeNow ∧
        existing.IsExpired cons.timestamp (env.now k) = false ∧
        cons = header.ConsensusState := by
  intro clients
  induction clients with
  | nil =>
    intro w h
    simp [findMatchingLoop] at h
  | cons c rest ih =>
    intro w h
    obtain ⟨cid, cstate⟩ := c
    cases cstate with
    | otherVariant u => simp [findMatchingLoop, CastClientStateToTMType] at h
    | undecodable => simp [findMatchingLoop, CastClientStateToTMType] at h
    | tendermint ecs =>
      rcases findMatchingLoop_step env source counterparty clientState cid ecs rest w with
        ⟨cons, header, w2, hret, ht, hlast, hz, hm, hq, hh, hexp, hcons⟩ | ⟨w2, hgo, hle⟩
      · rw [hret] at h ⊢
        simp only [Prod.mk.injEq, and_true] at h
        subst h
        exact ⟨ecs, cons, header, w.ticks, List.mem_cons_self _ _, hz, hm, hq, hh,
          Nat.le_refl _, ht, hlast, hexp, hcons⟩
      · rw [hgo] at h ⊢
        obtain ⟨e, cs, hd, k, hmem, hz, hm, hq, hh, hk, rest2⟩ := ih w2 h
        exact ⟨e, cs, hd, k, List.mem_cons_of_mem _ hmem, hz, hm, hq, hh,
          Nat.le_trans hle hk, rest2⟩

/-- A listed tendermint client is either returned, as it is when listed alone, or
the scan goes on with the clients after it. -/
theorem findMatchingLoop_cons_tendermint (env : Env) (source counterparty : Side)
    (clientState : ClientState) (cid : String) (ecs : ClientState)
    (rest : List IdentifiedClientState) (w : World) :
    ((findMatchingLoop env source counterparty clientState [⟨cid, .tendermint ecs⟩] w).1.2 = true ∧
      (findMatchingLoop env source counterparty clientState (⟨cid, .tendermint ecs⟩ :: rest) w).1
        = (cid, true)) ∨
    (∃ w2, findMatchingLoop env source counterparty clientState (⟨cid, .tendermint ecs⟩ :: rest) w
      = findMatchingLoop env source counterparty clientState rest w2) := by
  simp only [findMatchingLoop, CastClientStateToTMType]
  by_cases hm : (IsMatchingClient clientState ecs && ecs.frozenHeight.IsZero) = true
  · simp only [hm, if_true]
    cases hq : (env.chain source).queryConsensusStateABCI cid ecs.latestHeight with
    | error e => exact Or.inr ⟨_, rfl⟩
    | ok resp =>
      cases hh : (env.chain counterparty).getLightSignedHeaderAtHeight
          (int64OfUint64 ecs.latestHeight.revisionHeight) with
      | error e => exact Or.inr ⟨_, rfl⟩
      | ok header =>
        cases resp with
        | undecodable => exact Or.inr ⟨_, rfl⟩
        | otherVariant u => exact Or.inr ⟨_, rfl⟩
        | tendermint cons =>
          simp only []
          split
          · exact Or.inr ⟨_, rfl⟩
          · split
            · exact Or.inl ⟨rfl, rfl⟩
            · exact Or.inr ⟨_, rfl⟩
  · simp only [hm, if_false]
    exact Or.inr ⟨_, rfl⟩

/-- Completeness of the scan behind tendermint clients: a client that passes
every check is returned when each client listed before it is of the tendermint
variant and is not returned itself. -/
theorem findMatchingLoop_first_match (env : Env) (source counterparty : Side)
    (clientState : ClientState) (id : String) (existing : ClientState)
    (cons : ConsensusState) (header : Header) (post : List IdentifiedClientState)
    (hm : IsMatchingClient clientState existing = true)
    (hz : existing.frozenHeight.IsZero = true)
    (hq : (env.chain source).queryConsensusStateABCI id existing.latestHeight
      = .ok (.tendermint cons))
    (hh : (env.chain counterparty).getLightSignedHeaderAtHeight
      (int64OfUint64 existing.latestHeight.revisionHeight) = .ok header)
    (hexp : ∀ k, existing.IsExpired cons.timestamp (env.now k) = false)
    (heq : cons = header.ConsensusState) :
    ∀ (pre : List IdentifiedClientState) (w : World),
      (∀ c ∈ pre, (∃ ecs, c.clientState = .tendermint ecs) ∧
        ∀ w2, (findMatchingLoop env source counterparty clientState [c] w2).1.2 = false) →
      (findMatchingLoop env source counterparty clientState
        (pre ++ ⟨id, .tendermint existing⟩ :: post) w).1 = (id, true) := by
  intro pre
  induction pre with
  | nil =>
    intro w _
    simp only [List.nil_append, findMatchingLoop, CastClientStateToTMType, hm, hz,
      Bool.and_self, if_true, hq, hh, World.timeNow, hexp, Bool.false_eq_true, if_false]
    simp [IsMatchingConsensusState, heq]
  | cons c pre ih =>
    intro w hpre
    obtain ⟨⟨ecs, hc⟩, hnot⟩ := hpre c (List.mem_cons_self _ _)
    obtain ⟨cid, cstate⟩ := c
    simp only at hc
    subst hc
    rcases findMatchingLoop_cons_tendermint env source counterparty clientState cid ecs
      (pre ++ ⟨id, .tendermint existing⟩ :: post) w with ⟨h1, _⟩ | ⟨w2, h2⟩
    · rw [hnot w] at h1
      cases h1
    · rw [List.cons_append, h2]
      exact ih w2 (fun c hcm => hpre c (List.mem_cons_of_mem _ hcm))

/-- C2: whenever `FindMatchingClient` returns `(id, true)`, `id` is the identifier
of a client listed by `source.QueryClients` whose tendermint client state has a
zero frozen height, matches the candidate under `IsMatchingClient`, and whose
consensus state at its own latest height, as queried on `source`, is equal to the
consensus state of the counterparty's signed header fetched at that height. The
client was not expired at the time of the scan: its expiry was tested against
clock read `k`, a read made during the scan (not before `w.ticks`) and the last
one of it, the scan ending with that read. -/
theorem FindMatchingClient_sound (env : Env) (source counterparty : Side)
    (clientState : ClientState) (w : World) (id : String)
    (h : (FindMatchingClient env source counterparty clientState w).1 = (id, true)) :
    ∃ (clients : List IdentifiedClientState) (existing : ClientState)
      (cons : ConsensusState) (header : Header) (k : Nat),
      (env.chain source).queryClients = .ok clients ∧
      (⟨id, .tendermint existing⟩ : IdentifiedClientState) ∈ clients ∧
      existing.frozenHeight = ZeroHeight ∧
      IsMatchingClient clientState existing = true ∧
      (env.chain source).queryConsensusStateABCI id existing.latestHeight
        = .ok (.tendermint cons) ∧
      (env.chain counterparty).getLightSignedHeaderAtHeight
        (int64OfUint64 existing.latestHeight.revisionHeight) = .ok header ∧
      (existing.latestHeight.revisionHeight < 2 ^ 63 →
        int64OfUint64 existing.latestHeight.revisionHeight
          = (existing.latestHeight.revisionHeight : Int)) ∧
      w.ticks ≤ k ∧
      (FindMatchingClient env source counterparty clientState w).2.ticks = k + 1 ∧
      (FindMatchingClient env source counterparty clientState w).2.trace.getLast?
        = some .timeNow ∧
      existing.IsExpired cons.timestamp (env.now k) = false ∧
      cons = header.ConsensusState := by
  unfold FindMatchingClient at h ⊢
  cases hq : (env.chain source).queryClients with
  | error e => simp [hq] at h
  | ok clients =>
    simp only [hq] at h ⊢
    obtain ⟨existing, cons, header, k, hmem, hz, hm, hc, hh, hk, ht, hlast, hexp, heq⟩ :=
      findMatchingLoop_sound env source counterparty clientState id clients _ h
    refine ⟨clients, existing, cons, header, k, rfl, hmem, ?_, hm, hc, hh, ?_, hk, ht, hlast,
      hexp, heq⟩
    · cases hf : existing.frozenHeight with
      | mk rn rh =>
        rw [hf] at hz
        simp only [Height.IsZero, Bool.and_eq_true, beq_iff_eq] at hz
        simp only [ZeroHeight, Height.mk.injEq]
        exact hz
    · intro hlt
      have h64 : existing.latestHeight.revisionHeight % 2 ^ 64
          = existing.latestHeight.revisionHeight := Nat.mod_eq_of_lt (by omega)
      simp only [int64OfUint64, h64, if_pos hlt]

theorem FindMatchingClient_sound_witness :
    (FindMatchingClient (exampleEnv chainSecondMatches exampleChain) .src .dst exampleCandidate
        (World.init "" "")).1 = ("07-tendermint-1", true) ∧
    ∃ (clients : List IdentifiedClientState) (existing : ClientState)
      (cons : ConsensusState) (header : Header) (k : Nat),
      ((exampleEnv chainSecondMatches exampleChain).chain .src).queryClients = .ok clients ∧
      (⟨"07-tendermint-1", .tendermint existing⟩ : IdentifiedClientState) ∈ clients ∧
      existing.frozenHeight = ZeroHeight ∧
      IsMatchingClient exampleCandidate existing = true ∧
      ((exampleEnv chainSecondMatches exampleChain).chain .src).queryConsensusStateABCI
        "07-tendermint-1" existing.latestHeight = .ok (.tendermint cons) ∧
      ((exampleEnv chainSecondMatches exampleChain).chain .dst).getLightSignedHeaderAtHeight
        (int64OfUint64 existing.latestHeight.revisionHeight) = .ok header ∧
      (existing.latestHeight.revisionHeight < 2 ^ 63 →
        int64OfUint64 existing.latestHeight.revisionHeight
          = (existing.latestHeight.revisionHeight : Int)) ∧
      (World.init "" "").ticks ≤ k ∧
      (FindMatchingClient (exampleEnv chainSecondMatches exampleChain) .src .dst
        exampleCandidate (World.init "" "")).2.ticks = k + 1 ∧
      (FindMatchingClient (exampleEnv chainSecondMatches exampleChain) .src .dst
        exampleCandidate (World.init "" "")).2.trace.getLast? = some .timeNow ∧
      existing.IsExpired cons.timestamp ((exampleEnv chainSecondMatches exampleChain).now k)
        = false ∧
      cons = header.ConsensusState :=
  ⟨by decide, FindMatchingClient_sound (exampleEnv chainSecondMatches exampleChain) .src .dst
    exampleCandidate (World.init "" "") "07-tendermint-1" (by decide)⟩

/-- C3: on the list whose first client is of another light-client variant and
whose second client matches the candidate in full, `FindMatchingClient` returns
`("", false)`: the scan ends at the first client instead of skipping it. The
second client listed alone is returned, and so is the second client when the
first one fails its consensus-state query. -/
theorem FindMatchingClient_stops_at_other_variant :
    (FindMatchingClient (exampleEnv chainOtherVariantFirst exampleChain) .src .dst
        exampleCandidate (World.init "" "")).1 = ("", false) ∧
    (FindMatchingClient (exampleEnv chainOnlyMatch exampleChain) .src .dst
        exampleCandidate (World.init "" "")).1 = ("07-tendermint-1", true) ∧
    (FindMatchingClient (exampleEnv chainSecondMatches exampleChain) .src .dst
        exampleCandidate (World.init "" "")).1 = ("07-tendermint-1", true) := by
  decide

/-- C10 as stated fails at `height = 0` with the counterparty's latest height
at 7: the signed header is fetched at height 0, the latest height is queried only
after that fetch, and the upgraded client state and consensus state are queried
at height 7. -/
theorem UpgradeClients_header_fetched_before_resolution :
    (UpgradeClients (exampleEnv exampleChain chainLatestSeven) 0 (World.init "a" "b")).2.trace
      = [.getLightSignedHeaderAtHeight .dst 0, .queryLatestHeight .dst,
         .queryUpgradedClient .dst 7, .queryUpgradedConsState .dst 7,
         .sendMsgs .src
           [.updateClient "a" exampleHeader "relayer",
            .upgradeClient "a" (.tendermint exampleExisting)
              (.tendermint exampleHeader.ConsensusState) (some [3]) (some [4]) "relayer"]
           true none] := by
  decide

/-- C10, amended: in `UpgradeClients` the counterparty's signed header is fetched
at the requested height as given. When that height is not 0, the upgraded client
state and the upgraded consensus state are queried at the same height. When it is
0, the header is fetched at height 0, `QueryLatestHeight` is called after that
fetch, and the upgraded client state and consensus state are both queried at the
height it returns. -/
theorem UpgradeClients_query_heights (env : Env) (height latest : Int) (w : World)
    (dstHeader : Header) (updateMsg : Msg)
    (clientState : AnyClientState) (proofUpgradeClient : Bytes)
    (consensusState : AnyConsensusState) (proofUpgradeConsensusState : Bytes)
    (hh : env.dst.getLightSignedHeaderAtHeight height = .ok dstHeader)
    (hu : env.src.updateClient w.srcClientID dstHeader = .ok updateMsg)
    (hl : height = 0 → env.dst.queryLatestHeight = .ok latest)
    (hc : env.dst.queryUpgradedClient (if height = 0 then latest else height)
      = .ok (clientState, proofUpgradeClient))
    (hs : env.dst.queryUpgradedConsState (if height = 0 then latest else height)
      = .ok (consensusState, proofUpgradeConsensusState)) :
    ∃ tail : List Event,
      (UpgradeClients env height w).2.trace
        = w.trace ++ [.getLightSignedHeaderAtHeight .dst height]
          ++ (if height = 0 then [.queryLatestHeight .dst] else [])
          ++ [.queryUpgradedClient .dst (if height = 0 then latest else height),
              .queryUpgradedConsState .dst (if height = 0 then latest else height)]
          ++ tail ∧
      (∀ e ∈ tail, ∃ msgs success err, e = .sendMsgs .src msgs success err ∨ e = .logFailedTx .src) := by
  have tailOk : ∀ (msgs : List Msg) (r : SendResult),
      ∀ e ∈ ([.sendMsgs .src msgs r.success r.err] ++
          (if r.err.isSome then [Event.logFailedTx .src] else []) : List Event),
        ∃ msgs success err, e = .sendMsgs .src msgs success err ∨ e = .logFailedTx .src := by
    intro msgs r e he
    rcases List.mem_append.mp he with he | he
    · exact ⟨_, _, _, Or.inl (List.mem_singleton.mp he)⟩
    · split at he
      · exact ⟨[], true, none, Or.inr (List.mem_singleton.mp he)⟩
      · simp at he
  refine ⟨[.sendMsgs .src [updateMsg,
        Msg.upgradeClient w.srcClientID clientState consensusState proofUpgradeClient
          proofUpgradeConsensusState env.src.mustGetAddress]
        (env.src.sendMsgs [updateMsg,
          Msg.upgradeClient w.srcClientID clientState consensusState proofUpgradeClient
            proofUpgradeConsensusState env.src.mustGetAddress]).success
        (env.src.sendMsgs [updateMsg,
          Msg.upgradeClient w.srcClientID clientState consensusState proofUpgradeClient
            proofUpgradeConsensusState env.src.mustGetAddress]).err] ++
      (if (env.src.sendMsgs [updateMsg,
          Msg.upgradeClient w.srcClientID clientState consensusState proofUpgradeClient
            proofUpgradeConsensusState env.src.mustGetAddress]).err.isSome
        then [Event.logFailedTx .src] else []), ?_, tailOk _ _⟩
  unfold UpgradeClients
  simp only [hh, World.emit, hu]
  by_cases h0 : height = 0
  · simp only [h0, if_true] at hc hs ⊢
    simp only [hl h0, hc, hs]
    cases (env.src.sendMsgs [updateMsg,
        Msg.upgradeClient w.srcClientID clientState consensusState proofUpgradeClient
          proofUpgradeConsensusState env.src.mustGetAddress]).err <;> simp
  · simp only [h0, if_false] at hc hs ⊢
    simp only [hc, hs]
    cases (env.src.sendMsgs [updateMsg,
        Msg.upgradeClient w.srcClientID clientState consensusState proofUpgradeClient
          proofUpgradeConsensusState env.src.mustGetAddress]).err <;> simp

theorem UpgradeClients_query_heights_witness :
    ∃ tail : List Event,
      (UpgradeClients (exampleEnv exampleChain chainLatestSeven) 0 (World.init "a" "b")).2.trace
        = (World.init "a" "b").trace ++ [.getLightSignedHeaderAtHeight .dst 0]
          ++ (if (0 : Int) = 0 then [.queryLatestHeight .dst] else [])
          ++ [.queryUpgradedClient .dst (if (0 : Int) = 0 then 7 else 0),
              .queryUpgradedConsState .dst (if (0 : Int) = 0 then 7 else 0)]
          ++ tail ∧
      (∀ e ∈ tail, ∃ msgs success err, e = .sendMsgs .src msgs success err ∨ e = .logFailedTx .src) :=
  UpgradeClients_query_heights (exampleEnv exampleChain chainLatestSeven) 0 7 (World.init "a" "b")
    exampleHeader (.updateClient "a" exampleHeader "relayer")
    (.tendermint exampleExisting) (some [3]) (.tendermint exampleHeader.ConsensusState) (some [4])
    rfl rfl (fun _ => rfl) rfl rfl

/-- C8 as stated fails for a negative threshold: with `thresholdTime = -1000`, a
trusting period of 1000 and a consensus state that expired at 1100 read at time
1500, `AutoUpdateClient` returns `(-400, nil)`. -/
theorem AutoUpdateClient_expired_negative_threshold :
    exampleExisting.IsExpired exampleHeader.ConsensusState.timestamp ⟨1500, 0⟩ = true ∧
    (AutoUpdateClient (lateEnv exampleChain exampleChain) (-1000) (World.init "a" "b")).1
      = (-400, none) := by
  decide

/-- C8, amended: for every threshold time that is not negative, whenever the
height, client-state and consensus-state queries succeed and the client's
latest consensus state is expired at the clock reads of the call,
`AutoUpdateClient` returns a non-nil error and submits no transaction. -/
theorem AutoUpdateClient_expired (env : Env) (thresholdTime : Int) (w : World)
    (srch dsth : Int) (clientState : ClientState) (consensusState : ConsensusState)
    (hthr : 0 ≤ thresholdTime)
    (hs : env.src.queryLatestHeight = .ok srch)
    (hd : env.dst.queryLatestHeight = .ok dsth)
    (hcs : env.src.queryTMClientState w.srcClientID srch = .ok clientState)
    (hcons : env.src.queryConsensusStateABCI w.srcClientID clientState.latestHeight
      = .ok (.tendermint consensusState))
    (hexp : ∀ k, clientState.IsExpired consensusState.timestamp (env.now k) = true) :
    (∃ e, (AutoUpdateClient env thresholdTime w).1 = (0, some e)) ∧
    submitted (AutoUpdateClient env thresholdTime w).2.trace = submitted w.trace := by
  have h1 := hexp w.ticks
  have h2 := hexp (w.ticks + 1)
  simp only [ClientState.IsExpired, Time.After, Time.Add, Bool.not_eq_true',
    decide_eq_false_iff_not, not_lt] at h1 h2
  have hle0 : (timeSub (consensusState.timestamp.Add clientState.trustingPeriod)
      (env.now w.ticks) : Int) ≤ 0 := by
    simp only [timeSub, Time.Add, maxDuration, minDuration]
    split
    · omega
    · split <;> omega
  have hle : ¬ timeSub (consensusState.timestamp.Add clientState.trustingPeriod)
      (env.now w.ticks) > thresholdTime := not_lt.mpr (le_trans hle0 hthr)
  unfold AutoUpdateClient QueryLatestHeights
  simp only [hs, hd, World.emit, hcs]
  by_cases htp : clientState.trustingPeriod ≤ thresholdTime
  · rw [if_pos htp]
    exact ⟨⟨_, rfl⟩, by simp [submitted, List.filter_append, Event.isSendMsgs]⟩
  · rw [if_neg htp]
    simp only [hcons, World.timeNow]
    rw [if_neg hle]
    have hx : clientState.IsExpired consensusState.timestamp (env.now (w.ticks + 1)) = true :=
      hexp _
    simp only [hx, if_true]
    exact ⟨⟨_, rfl⟩, by simp [submitted, List.filter_append, Event.isSendMsgs]⟩

theorem AutoUpdateClient_expired_witness :
    (∃ e, (AutoUpdateClient (lateEnv exampleChain exampleChain) 10 (World.init "a" "b")).1
      = (0, some e)) ∧
    submitted (AutoUpdateClient (lateEnv exampleChain exampleChain) 10 (World.init "a" "b")).2.trace
      = submitted (World.init "a" "b").trace :=
  AutoUpdateClient_expired (lateEnv exampleChain exampleChain) 10 (World.init "a" "b") 5 5
    exampleExisting exampleHeader.ConsensusState (by decide) rfl rfl rfl rfl
    (fun _ => rfl)

/-- C9: whenever the height, client-state and consensus-state queries succeed,
the trusting period exceeds the threshold and `timeToExpiry`, the time from the
clock read to `consensusState.timestamp + trustingPeriod`, is greater than the
threshold, `AutoUpdateClient` returns `(timeToExpiry, nil)`, fetches no update
header and submits no transaction. `timeToExpiry` is the exact difference
whenever that difference fits a `time.Duration`. -/
theorem AutoUpdateClient_not_due (env : Env) (thresholdTime : Int) (w : World)
    (srch dsth : Int) (clientState : ClientState) (consensusState : ConsensusState)
    (hs : env.src.queryLatestHeight = .ok srch)
    (hd : env.dst.queryLatestHeight = .ok dsth)
    (hcs : env.src.queryTMClientState w.srcClientID srch = .ok clientState)
    (htp : thresholdTime < clientState.trustingPeriod)
    (hcons : env.src.queryConsensusStateABCI w.srcClientID clientState.latestHeight
      = .ok (.tendermint consensusState))
    (hgt : timeSub (consensusState.timestamp.Add clientState.trustingPeriod) (env.now w.ticks)
      > thresholdTime) :
    (AutoUpdateClient env thresholdTime w).1
      = (timeSub (consensusState.timestamp.Add clientState.trustingPeriod) (env.now w.ticks),
          none) ∧
    (AutoUpdateClient env thresholdTime w).2.trace.filter Event.isGetIBCUpdateHeader
      = w.trace.filter Event.isGetIBCUpdateHeader ∧
    submitted (AutoUpdateClient env thresholdTime w).2.trace = submitted w.trace ∧
    (minDuration ≤ consensusState.timestamp.nanos + clientState.trustingPeriod
        - (env.now w.ticks).nanos →
      consensusState.timestamp.nanos + clientState.trustingPeriod - (env.now w.ticks).nanos
        ≤ maxDuration →
      timeSub (consensusState.timestamp.Add clientState.trustingPeriod) (env.now w.ticks)
        = consensusState.timestamp.nanos + clientState.trustingPeriod
          - (env.now w.ticks).nanos) := by
  have hres : AutoUpdateClient env thresholdTime w
      = ((timeSub (consensusState.timestamp.Add clientState.trustingPeriod) (env.now w.ticks),
          none),
        { w with
          ticks := w.ticks + 1,
          trace := w.trace ++ [.queryLatestHeight .src] ++ [.queryLatestHeight .dst]
            ++ [.queryTMClientState .src srch]
            ++ [.queryConsensusStateABCI .src w.srcClientID clientState.latestHeight]
            ++ [.timeNow] }) := by
    unfold AutoUpdateClient QueryLatestHeights
    simp only [hs, hd, World.emit, hcs]
    rw [if_neg (not_le.mpr htp)]
    simp only [hcons, World.timeNow]
    rw [if_pos hgt]
  rw [hres]
  refine ⟨rfl, ?_, ?_, ?_⟩
  · simp [List.filter_append, Event.isGetIBCUpdateHeader]
  · simp [submitted, List.filter_append, Event.isSendMsgs]
  · intro hlo hhi
    simp only [timeSub, Time.Add]
    rw [if_neg (by omega), if_neg (by omega)]

theorem AutoUpdateClient_not_due_witness :
    (AutoUpdateClient (exampleEnv exampleChain exampleChain) 10 (World.init "a" "b")).1
      = (timeSub (exampleHeader.ConsensusState.timestamp.Add exampleExisting.trustingPeriod)
          ((exampleEnv exampleChain exampleChain).now (World.init "a" "b").ticks), none) ∧
    (AutoUpdateClient (exampleEnv exampleChain exampleChain) 10
        (World.init "a" "b")).2.trace.filter Event.isGetIBCUpdateHeader
      = (World.init "a" "b").trace.filter Event.isGetIBCUpdateHeader ∧
    submitted (AutoUpdateClient (exampleEnv exampleChain exampleChain) 10
        (World.init "a" "b")).2.trace = submitted (World.init "a" "b").trace ∧
    (minDuration ≤ exampleHeader.ConsensusState.timestamp.nanos + exampleExisting.trustingPeriod
        - ((exampleEnv exampleChain exampleChain).now (World.init "a" "b").ticks).nanos →
      exampleHeader.ConsensusState.timestamp.nanos + exampleExisting.trustingPeriod
        - ((exampleEnv exampleChain exampleChain).now (World.init "a" "b").ticks).nanos
        ≤ maxDuration →
      timeSub (exampleHeader.ConsensusState.timestamp.Add exampleExisting.trustingPeriod)
          ((exampleEnv exampleChain exampleChain).now (World.init "a" "b").ticks)
        = exampleHeader.ConsensusState.timestamp.nanos + exampleExisting.trustingPeriod
          - ((exampleEnv exampleChain exampleChain).now (World.init "a" "b").ticks).nanos) :=
  AutoUpdateClient_not_due (exampleEnv exampleChain exampleChain) 10 (World.init "a" "b") 5 5
    exampleExisting exampleHeader.ConsensusState rfl rfl rfl (by decide) rfl (by decide)

/-- C5: when both `PathEnd` client identifiers are set and the height queries,
the header fetches and both `QueryClientStateResponse` existence checks succeed,
`CreateClients` returns `(false, nil)`, submits no transaction on either chain,
never calls `FindMatchingClient` and leaves both identifiers unchanged. -/
theorem CreateClients_both_configured (env : Env)
    (allowUpdateAfterExpiry allowUpdateAfterMisbehaviour override : Bool) (w : World)
    (srch dsth : Int) (srcUpdateHeader dstUpdateHeader : Header)
    (srcState dstState : AnyClientState)
    (hsrc : w.srcClientID ≠ "") (hdst : w.dstClientID ≠ "")
    (hs : env.src.queryLatestHeight = .ok srch)
    (hd : env.dst.queryLatestHeight = .ok dsth)
    (hsh : env.src.getLightSignedHeaderAtHeight srch = .ok srcUpdateHeader)
    (hdh : env.dst.getLightSignedHeaderAtHeight dsth = .ok dstUpdateHeader)
    (hse : env.src.queryClientStateResponse w.srcClientID srcUpdateHeader.height = .ok srcState)
    (hde : env.dst.queryClientStateResponse w.dstClientID dstUpdateHeader.height = .ok dstState) :
    (CreateClients env allowUpdateAfterExpiry allowUpdateAfterMisbehaviour override w).1
      = .returned false none ∧
    submitted (CreateClients env allowUpdateAfterExpiry allowUpdateAfterMisbehaviour
      override w).2.trace = submitted w.trace ∧
    clientScans (CreateClients env allowUpdateAfterExpiry allowUpdateAfterMisbehaviour
      override w).2.trace = clientScans w.trace ∧
    (CreateClients env allowUpdateAfterExpiry allowUpdateAfterMisbehaviour
      override w).2.srcClientID = w.srcClientID ∧
    (CreateClients env allowUpdateAfterExpiry allowUpdateAfterMisbehaviour
      override w).2.dstClientID = w.dstClientID := by
  have hres : CreateClients env allowUpdateAfterExpiry allowUpdateAfterMisbehaviour override w
      = (.returned false none,
        { w with
          trace := w.trace ++ [.queryLatestHeight .src] ++ [.queryLatestHeight .dst]
            ++ [.getLightSignedHeaderAtHeight .src srch]
            ++ [.getLightSignedHeaderAtHeight .dst dsth]
            ++ [.queryClientStateResponse .src srcUpdateHeader.height]
            ++ [.queryClientStateResponse .dst dstUpdateHeader.height]
            ++ [.log .src] }) := by
    unfold CreateClients QueryLatestHeights fetchSignedHeaders
    simp only [hs, hd, hsh, hdh, World.emit]
    unfold createClientOn
    simp only [World.clientID, hsrc, hdst, if_false, Env.chain, World.emit, hse, hde]
  rw [hres]
  refine ⟨rfl, ?_, ?_, rfl, rfl⟩
  · simp [submitted, List.filter_append, Event.isSendMsgs]
  · simp [clientScans, List.filter_append, Event.isQueryClients]

theorem CreateClients_both_configured_witness :
    (CreateClients (exampleEnv exampleChain exampleChain) true true false
        (World.init "07-tendermint-3" "07-tendermint-4")).1 = .returned false none ∧
    submitted (CreateClients (exampleEnv exampleChain exampleChain) true true false
        (World.init "07-tendermint-3" "07-tendermint-4")).2.trace
      = submitted (World.init "07-tendermint-3" "07-tendermint-4").trace ∧
    clientScans (CreateClients (exampleEnv exampleChain exampleChain) true true false
        (World.init "07-tendermint-3" "07-tendermint-4")).2.trace
      = clientScans (World.init "07-tendermint-3" "07-tendermint-4").trace ∧
    (CreateClients (exampleEnv exampleChain exampleChain) true true false
        (World.init "07-tendermint-3" "07-tendermint-4")).2.srcClientID
      = (World.init "07-tendermint-3" "07-tendermint-4").srcClientID ∧
    (CreateClients (exampleEnv exampleChain exampleChain) true true false
        (World.init "07-tendermint-3" "07-tendermint-4")).2.dstClientID
      = (World.init "07-tendermint-3" "07-tendermint-4").dstClientID :=
  CreateClients_both_configured (exampleEnv exampleChain exampleChain) true true false
    (World.init "07-tendermint-3" "07-tendermint-4") 5 5 exampleHeader exampleHeader
    (.tendermint exampleExisting) (.tendermint exampleExisting)
    (by decide) (by decide) rfl rfl rfl rfl rfl rfl

/-! ### One block of `CreateClients` -/

theorem trace_emit (w : World) (e : Event) : (w.emit e).trace = w.trace ++ [e] := rfl

theorem trace_setClientID (w : World) (s : Side) (id : String) :
    (w.setClientID s id).trace = w.trace ++ [.setClientID s id] := by
  cases s <;> rfl

theorem clientID_emit (w : World) (e : Event) (s : Side) :
    (w.emit e).clientID s = w.clientID s := by
  cases s <;> rfl

theorem clientID_setClientID_ne (w : World) (s s2 : Side) (id : String) (h : s2 ≠ s) :
    (w.setClientID s id).clientID s2 = w.clientID s2 := by
  cases s <;> cases s2 <;> first | rfl | exact absurd rfl h

theorem clientID_setClientID_self (w : World) (s : Side) (id : String) :
    (w.setClientID s id).clientID s = id := by
  cases s <;> rfl

theorem StepSummary.error {self : Side} {modified : Bool} {w w2 : World} (e : Err)
    (h : Extends Event.isQuiet w w2) :
    StepSummary self modified w (.done (.returned modified (some e)), w2) :=
  ⟨fun s _ => h.clientID s, h.filter_eq _ isSetClientID_of_isQuiet, Or.inl rfl⟩

theorem StepSummary.failedSend {self : Side} {modified : Bool} {w w2 : World} (e : Err)
    (msgs : List Msg) (success : Bool) (err : Option Err)
    (h : Extends Event.isQuiet w w2) :
    StepSummary self modified w (.done (.returned modified (some e)),
      (w2.emit (.sendMsgs self msgs success err)).emit (.logFailedTx self)) := by
  refine ⟨fun s _ => ?_, ?_, Or.inl rfl⟩
  · rw [clientID_emit, clientID_emit]
    exact h.clientID s
  · have := h.filter_eq _ isSetClientID_of_isQuiet
    simp only [writes, World.emit, List.filter_append, this]
    simp [Event.isSetClientID]

theorem StepSummary.panicked {self : Side} {modified : Bool} {w w2 : World}
    (msgs : List Msg) (h : Extends Event.isQuiet w w2) :
    StepSummary self modified w (.done .panicked, w2.emit (.sendMsgs self msgs true none)) := by
  refine ⟨fun s _ => ?_, ?_, ?_⟩
  · rw [clientID_emit]
    exact h.clientID s
  · have := h.filter_eq _ isFailedSend_of_isQuiet
    simp only [failedSends, World.emit, List.filter_append, this]
    simp [Event.isFailedSend]
  · have := h.filter_eq _ isSetClientID_of_isQuiet
    simp only [writes, World.emit, List.filter_append, this]
    simp [Event.isSetClientID]

theorem StepSummary.unparsed {self : Side} {modified : Bool} {w w2 : World} (e : Err)
    (msgs : List Msg) (h : Extends Event.isQuiet w w2) :
    StepSummary self modified w (.done (.returned modified (some e)),
      w2.emit (.sendMsgs self msgs true none)) := by
  refine ⟨fun s _ => ?_, ?_, Or.inl rfl⟩
  · rw [clientID_emit]
    exact h.clientID s
  · have := h.filter_eq _ isSetClientID_of_isQuiet
    simp only [writes, World.emit, List.filter_append, this]
    simp [Event.isSetClientID]

theorem StepSummary.created {self : Side} {modified : Bool} {w w2 : World}
    (msgs : List Msg) (cid : String) (h : Extends Event.isQuiet w w2) :
    StepSummary self modified w (.next true,
      (w2.emit (.sendMsgs self msgs true none)).setClientID self cid) := by
  refine ⟨fun s hs => ?_, ?_, Or.inl rfl⟩
  · rw [clientID_setClientID_ne _ _ _ _ hs, clientID_emit]
    exact h.clientID s
  · have := h.filter_eq _ isFailedSend_of_isQuiet
    simp only [failedSends, trace_setClientID, World.emit, List.filter_append, this]
    simp [Event.isFailedSend]

theorem StepSummary.reused {self : Side} {modified : Bool} {w w2 : World}
    (cid : String) (h : Extends Event.isQuiet w w2) :
    StepSummary self modified w (.next true, w2.setClientID self cid) := by
  refine ⟨fun s hs => ?_, ?_, Or.inl rfl⟩
  · rw [clientID_setClientID_ne _ _ _ _ hs]
    exact h.clientID s
  · have := h.filter_eq _ isFailedSend_of_isQuiet
    simp only [failedSends, trace_setClientID, List.filter_append, this]
    simp [Event.isFailedSend]

theorem StepSummary.checked {self : Side} {modified : Bool} {w w2 : World}
    (h : Extends Event.isQuiet w w2) :
    StepSummary self modified w (.next modified, w2) :=
  ⟨fun s _ => h.clientID s, h.filter_eq _ isFailedSend_of_isQuiet,
    Or.inr ⟨rfl, h.filter_eq _ isSetClientID_of_isQuiet, h.filter_eq _ isSendMsgs_of_isQuiet⟩⟩

theorem StepSummary.checkFailed {self : Side} {modified : Bool} {w w2 : World} (e : Err)
    (hid : w.clientID self ≠ "") (h : Extends Event.isQuiet w w2) :
    StepSummary self modified w (.done (.returned false (some e)), w2) :=
  ⟨fun s _ => h.clientID s, h.filter_eq _ isSetClientID_of_isQuiet, Or.inr ⟨rfl, hid⟩⟩

/-- The world in which a block decides between reuse and creation is reached
from the world at its start by quiet events only. -/
theorem found_quiet (env : Env) (self other : Side) (clientState : ClientState)
    (override : Bool) (w : World) :
    Extends Event.isQuiet w
      (if (!override) = true then FindMatchingClient env self other clientState
          ((w.debugLog env self).emit (.queryUnbondingPeriod other))
        else (("", false), (w.debugLog env self).emit (.queryUnbondingPeriod other))).2 := by
  have h1 : Extends Event.isQuiet w ((w.debugLog env self).emit (.queryUnbondingPeriod other)) :=
    (Extends.debugLog _ env w self rfl).trans (Extends.emit _ _ _ rfl)
  split
  · exact h1.trans ((FindMatchingClient_scanned env self other clientState _).mono
      isQuiet_of_isScan)
  · exact h1

theorem createClientOn_summary (env : Env) (self other : Side) (selfHeader otherHeader : Header)
    (allowUpdateAfterExpiry allowUpdateAfterMisbehaviour override modified : Bool) (w : World) :
    StepSummary self modified w
      (createClientOn env self other selfHeader otherHeader allowUpdateAfterExpiry
        allowUpdateAfterMisbehaviour override modified w) := by
  unfold createClientOn
  by_cases hid : w.clientID self = ""
  · rw [if_pos hid]
    cases hubd : (env.chain other).queryUnbondingPeriod with
    | error e =>
      exact StepSummary.error e
        ((Extends.debugLog _ env w self rfl).trans (Extends.emit _ _ _ rfl))
    | ok ubdPeriod =>
      simp only []
      have hq := found_quiet env self other
        (candidateState env other otherHeader ubdPeriod allowUpdateAfterExpiry
          allowUpdateAfterMisbehaviour) override w
      generalize (if (!override) = true then FindMatchingClient env self other
          (candidateState env other otherHeader ubdPeriod allowUpdateAfterExpiry
          allowUpdateAfterMisbehaviour)
          ((w.debugLog env self).emit (.queryUnbondingPeriod other))
        else (("", false), (w.debugLog env self).emit (.queryUnbondingPeriod other))) = found
        at hq ⊢
      split
      · cases hcm : (env.chain self).createClient
            (candidateState env other otherHeader ubdPeriod allowUpdateAfterExpiry
          allowUpdateAfterMisbehaviour) otherHeader with
        | error e => exact StepSummary.error e hq
        | ok createMsg =>
          simp only []
          generalize (env.chain self).sendMsgs [createMsg] = r
          obtain ⟨res, success, err⟩ := r
          cases err with
          | some e => exact StepSummary.failedSend e _ _ _ hq
          | none =>
            cases success with
            | false => exact StepSummary.failedSend _ _ _ _ hq
            | true =>
              obtain ⟨rawLog, logs⟩ := res
              cases logs with
              | nil => exact StepSummary.panicked _ hq
              | cons events more =>
                simp only []
                cases hp : env.parseClientIDFromEvents events with
                | error e => exact StepSummary.unparsed e _ hq
                | ok clientID => exact StepSummary.created _ clientID hq
      · exact StepSummary.reused _ (hq.trans (Extends.debugLog _ env _ .src rfl))
  · rw [if_neg hid]
    have hq : Extends Event.isQuiet w (w.emit (.queryClientStateResponse self selfHeader.height)) :=
      Extends.emit _ _ _ rfl
    simp only []
    cases hc : (env.chain self).queryClientStateResponse
        ((w.emit (.queryClientStateResponse self selfHeader.height)).clientID self)
        selfHeader.height with
    | error e => exact StepSummary.checkFailed _ hid hq
    | ok _ => exact StepSummary.checked hq

/-! ### A whole call of `CreateClients` -/

theorem QueryLatestHeights_quiet (env : Env) (w : World) :
    Extends Event.isQuiet w (QueryLatestHeights env w).2 := by
  have h : Extends Event.isQuiet w
      ((w.emit (.queryLatestHeight .src)).emit (.queryLatestHeight .dst)) :=
    (Extends.emit _ _ _ rfl).trans (Extends.emit _ _ _ rfl)
  unfold QueryLatestHeights
  cases env.src.queryLatestHeight <;> cases env.dst.queryLatestHeight <;> exact h

theorem fetchSignedHeaders_quiet (env : Env) (srch dsth : Int) (w : World) :
    Extends Event.isQuiet w (fetchSignedHeaders env srch dsth w).2 := by
  have h : Extends Event.isQuiet w
      ((w.emit (.getLightSignedHeaderAtHeight .src srch)).emit
        (.getLightSignedHeaderAtHeight .dst dsth)) :=
    (Extends.emit _ _ _ rfl).trans (Extends.emit _ _ _ rfl)
  unfold fetchSignedHeaders
  cases env.src.getLightSignedHeaderAtHeight srch <;>
    cases env.dst.getLightSignedHeaderAtHeight dsth <;> exact h

theorem CreateClients_summary (env : Env)
    (allowUpdateAfterExpiry allowUpdateAfterMisbehaviour override : Bool) (w : World) :
    RunSummary w
      (CreateClients env allowUpdateAfterExpiry allowUpdateAfterMisbehaviour override w) := by
  unfold CreateClients
  have hq0 := QueryLatestHeights_quiet env w
  rcases hql : QueryLatestHeights env w with ⟨r0, w0⟩
  rw [hql] at hq0
  cases r0 with
  | error e => exact Or.inr (Or.inl (hq0.filter_eq _ isSetClientID_of_isQuiet))
  | ok hs =>
    obtain ⟨srch, dsth⟩ := hs
    simp only []
    have hq1 := hq0.trans (fetchSignedHeaders_quiet env srch dsth w0)
    rcases hf : fetchSignedHeaders env srch dsth w0 with ⟨r1, w1⟩
    rw [hf] at hq1
    cases r1 with
    | error e => exact Or.inr (Or.inl (hq1.filter_eq _ isSetClientID_of_isQuiet))
    | ok hd =>
      obtain ⟨srcUpdateHeader, dstUpdateHeader⟩ := hd
      simp only [] at hq1 ⊢
      have hw1 := hq1.filter_eq _ isSetClientID_of_isQuiet
      have hf1 := hq1.filter_eq _ isFailedSend_of_isQuiet
      have hs1 := hq1.filter_eq _ isSendMsgs_of_isQuiet
      have s1 := createClientOn_summary env .src .dst srcUpdateHeader dstUpdateHeader
        allowUpdateAfterExpiry allowUpdateAfterMisbehaviour override false w1
      rcases hc1 : createClientOn env .src .dst srcUpdateHeader dstUpdateHeader
        allowUpdateAfterExpiry allowUpdateAfterMisbehaviour override false w1 with ⟨st1, w2⟩
      rw [hc1] at s1
      obtain ⟨hid1, s1⟩ := s1
      cases st1 with
      | done c =>
        cases c with
        | panicked => exact s1.1.trans hf1
        | returned m e =>
          cases e with
          | none => exact s1.elim
          | some e => exact Or.inr (Or.inl (s1.1.trans hw1))
      | next m1 =>
        simp only [] at s1 ⊢
        have s2 := createClientOn_summary env .dst .src dstUpdateHeader srcUpdateHeader
          allowUpdateAfterExpiry allowUpdateAfterMisbehaviour override m1 w2
        rcases hc2 : createClientOn env .dst .src dstUpdateHeader srcUpdateHeader
          allowUpdateAfterExpiry allowUpdateAfterMisbehaviour override m1 w2 with ⟨st2, w3⟩
        rw [hc2] at s2
        obtain ⟨_, s2⟩ := s2
        cases st2 with
        | done c =>
          cases c with
          | panicked => exact s2.1.trans (s1.1.trans hf1)
          | returned m e =>
            cases e with
            | none => exact s2.elim
            | some e =>
              simp only [] at s2 ⊢
              rcases s2.2 with hm | ⟨hm, hne⟩
              · rcases s1.2 with h1 | ⟨h1, h1w, _⟩
                · exact Or.inl (hm.trans h1)
                · exact Or.inr (Or.inl (s2.1.trans (h1w.trans hw1)))
              · refine Or.inr (Or.inr ⟨hm, ?_⟩)
                have hd2 : w2.clientID .dst = w1.clientID .dst := hid1 .dst (by decide)
                have hd1 : w1.clientID .dst = w.clientID .dst := hq1.clientID .dst
                intro hw
                exact hne (hd2.trans (hd1.trans hw))
        | next m2 =>
          simp only [] at s2 ⊢
          have hlog : Extends Event.isQuiet w3 (w3.emit (.log .src)) := Extends.emit _ _ _ rfl
          refine ⟨(hlog.filter_eq _ isFailedSend_of_isQuiet).trans
            (s2.1.trans (s1.1.trans hf1)), ?_⟩
          rcases s2.2 with h2 | ⟨h2, h2w, h2s⟩
          · exact Or.inl h2
          · rcases s1.2 with h1 | ⟨h1, h1w, h1s⟩
            · exact Or.inl (h2.trans h1)
            · exact Or.inr ⟨(hlog.filter_eq _ isSetClientID_of_isQuiet).trans
                (h2w.trans (h1w.trans hw1)),
                (hlog.filter_eq _ isSendMsgs_of_isQuiet).trans (h2s.trans (h1s.trans hs1))⟩

theorem AutoUpdateClient_failedSend (env : Env) (thresholdTime : Int) (w : World)
    (h : failedSends (AutoUpdateClient env thresholdTime w).2.trace ≠ failedSends w.trace) :
    ∃ e, (AutoUpdateClient env thresholdTime w).1.2 = some e := by
  have hf0 := (QueryLatestHeights_quiet env w).filter_eq _ isFailedSend_of_isQuiet
  revert h
  unfold AutoUpdateClient
  rcases hql : QueryLatestHeights env w with ⟨r0, w0⟩
  rw [hql] at hf0
  simp only [World.emit, World.timeNow]
  cases r0 with
  | error e => simp
  | ok hs =>
    obtain ⟨srch, dsth⟩ := hs
    simp only []
    repeat' split
    all_goals simp_all [failedSends, List.filter_append, Event.isFailedSend]

theorem UpgradeClients_failedBroadcast (env : Env) (height : Int) (w : World)
    (h : (UpgradeClients env height w).2.trace.filter Event.isFailedBroadcast
      ≠ w.trace.filter Event.isFailedBroadcast) :
    ∃ e, (UpgradeClients env height w).1 = some e := by
  revert h
  unfold UpgradeClients
  simp only [World.emit]
  by_cases h0 : height = 0
  · subst h0
    simp only [if_true]
    cases env.dst.queryLatestHeight with
    | error e =>
      simp only []
      repeat' split
      all_goals simp_all [List.filter_append, Event.isFailedBroadcast]
    | ok latest =>
      simp only []
      repeat' split
      all_goals simp_all [List.filter_append, Event.isFailedBroadcast]
  · simp only [h0, if_false]
    repeat' split
    all_goals simp_all [List.filter_append, Event.isFailedBroadcast]

theorem UpdateClients_submitted (env : Env) (w : World)
    (h : submitted (UpdateClients env w).2.trace ≠ submitted w.trace) :
    (UpdateClients env w).1 = none := by
  have hq0 := QueryLatestHeights_quiet env w
  revert h
  unfold UpdateClients
  rcases hql : QueryLatestHeights env w with ⟨r0, w0⟩
  rw [hql] at hq0
  cases r0 with
  | error e =>
    intro h
    exact absurd (hq0.filter_eq _ isSendMsgs_of_isQuiet) h
  | ok hs =>
    obtain ⟨srch, dsth⟩ := hs
    simp only []
    have hq1 := hq0.trans (fetchSignedHeaders_quiet env srch dsth w0)
    rcases hf : fetchSignedHeaders env srch dsth w0 with ⟨r1, w1⟩
    rw [hf] at hq1
    have hs1 := hq1.filter_eq _ isSendMsgs_of_isQuiet
    cases r1 with
    | error e =>
      intro h
      exact absurd hs1 h
    | ok hd =>
      obtain ⟨srcUpdateHeader, dstUpdateHeader⟩ := hd
      simp only [] at hs1 ⊢
      repeat' split
      all_goals first
        | (intro _; rfl)
        | (intro h; exact absurd hs1 h)

/-- C6 as stated fails when the submitted transaction fails to broadcast: with
neither identifier set and a source chain whose submissions fail, one transaction
is submitted and `CreateClients` returns `modified = false`. -/
theorem CreateClients_failed_submission_not_modified :
    (CreateClients (exampleEnv chainBroadcastFails exampleChain) true true false
        (World.init "" "")).1 = .returned false (some "broadcast failed") ∧
    (submitted (CreateClients (exampleEnv chainBroadcastFails exampleChain) true true false
        (World.init "" "")).2.trace).length = 1 := by
  decide

/-- The flag at the existence check of a configured destination client: the
source client is created and its identifier written, the check on the
destination fails, and `CreateClients` returns `modified = false`. -/
theorem CreateClients_flag_at_failed_check :
    (CreateClients (exampleEnv exampleChain chainClientMissing) true true false
        (World.init "" "07-tendermint-4")).1
      = .returned false (some "please ensure provided on-chain client exists: client not found") ∧
    writes (CreateClients (exampleEnv exampleChain chainClientMissing) true true false
        (World.init "" "07-tendermint-4")).2.trace = [.setClientID .src "07-tendermint-9"] ∧
    (CreateClients (exampleEnv exampleChain chainClientMissing) true true false
        (World.init "" "07-tendermint-4")).2.srcClientID = "07-tendermint-9" := by
  decide

/-- C6, amended: in every run of `CreateClients` that returns a nil error, if a
create-client transaction was submitted on either chain then the returned
`modified` flag is true. In every run, whether it returns an error or not, if a
`PathEnd` client identifier was written (a transaction was accepted and its
identifier parsed, or a matching client was reused) then the returned flag is
true, provided the run does not end at the failed existence check of a configured
destination client. -/
theorem CreateClients_modified (env : Env)
    (allowUpdateAfterExpiry allowUpdateAfterMisbehaviour override : Bool) (w : World)
    (m : Bool) (e : Option Err)
    (hr : (CreateClients env allowUpdateAfterExpiry allowUpdateAfterMisbehaviour override w).1
      = .returned m e)
    (hd : w.dstClientID = "" ∨ e = none)
    (hw : writes (CreateClients env allowUpdateAfterExpiry allowUpdateAfterMisbehaviour
        override w).2.trace ≠ writes w.trace ∨
      (e = none ∧ submitted (CreateClients env allowUpdateAfterExpiry
        allowUpdateAfterMisbehaviour override w).2.trace ≠ submitted w.trace)) :
    (CreateClients env allowUpdateAfterExpiry allowUpdateAfterMisbehaviour override w).1
      = .returned true e := by
  have hsum := CreateClients_summary env allowUpdateAfterExpiry allowUpdateAfterMisbehaviour
    override w
  unfold RunSummary at hsum
  rw [hr] at hsum
  rw [hr]
  have hm : m = true := by
    cases e with
    | none =>
      simp only [] at hsum
      rcases hsum.2 with h | ⟨h1, h2⟩
      · exact h
      · rcases hw with hw | ⟨_, hw⟩
        · exact absurd h1 hw
        · exact absurd h2 hw
    | some err =>
      simp only [] at hsum
      rcases hsum with h | h | ⟨_, h⟩
      · exact h
      · rcases hw with hw | ⟨hn, _⟩
        · exact absurd h hw
        · cases hn
      · rcases hd with hd | hd
        · exact absurd hd h
        · cases hd
  rw [hm]

theorem CreateClients_modified_witness :
    writes (CreateClients (exampleEnv exampleChain chainCreateFails) true true false
        (World.init "" "")).2.trace ≠ writes (World.init "" "").trace ∧
    (CreateClients (exampleEnv exampleChain chainCreateFails) true true false
        (World.init "" "")).1 = .returned true (some "cannot build message") :=
  ⟨by decide,
    CreateClients_modified (exampleEnv exampleChain chainCreateFails) true true false
      (World.init "" "") true (some "cannot build message") (by decide) (Or.inl rfl)
      (Or.inl (by decide))⟩

/-- C7 as stated fails for `UpdateClients` and for `UpgradeClients`: with one
submission failing to broadcast and the other rejected, `UpdateClients` returns
nil; with its transaction rejected on-chain, `UpgradeClients` returns nil. -/
theorem UpdateClients_UpgradeClients_return_nil_on_failure :
    (UpdateClients (exampleEnv chainBroadcastFails chainRejects) (World.init "a" "b")).1 = none ∧
    (failedSends (UpdateClients (exampleEnv chainBroadcastFails chainRejects)
      (World.init "a" "b")).2.trace).length = 2 ∧
    (UpgradeClients (exampleEnv chainRejects exampleChain) 5 (World.init "a" "b")).1 = none ∧
    (failedSends (UpgradeClients (exampleEnv chainRejects exampleChain) 5
      (World.init "a" "b")).2.trace).length = 1 := by
  decide

/-- C7, amended: in `CreateClients` and in `AutoUpdateClient`, if a submitted
transaction fails to broadcast or is rejected on-chain, the operation returns a
non-nil error. In `UpgradeClients`, if the submitted transaction fails to
broadcast, the operation returns a non-nil error. `UpdateClients` returns nil
whenever it has submitted its batch, whether the submissions succeeded or not. -/
theorem transaction_failures (env : Env) (w : World) :
    (∀ allowUpdateAfterExpiry allowUpdateAfterMisbehaviour override : Bool,
      failedSends (CreateClients env allowUpdateAfterExpiry allowUpdateAfterMisbehaviour
        override w).2.trace ≠ failedSends w.trace →
      ∃ m e, (CreateClients env allowUpdateAfterExpiry allowUpdateAfterMisbehaviour
        override w).1 = .returned m (some e)) ∧
    (∀ thresholdTime : Int,
      failedSends (AutoUpdateClient env thresholdTime w).2.trace ≠ failedSends w.trace →
      ∃ e, (AutoUpdateClient env thresholdTime w).1.2 = some e) ∧
    (∀ height : Int,
      (UpgradeClients env height w).2.trace.filter Event.isFailedBroadcast
        ≠ w.trace.filter Event.isFailedBroadcast →
      ∃ e, (UpgradeClients env height w).1 = some e) ∧
    (submitted (UpdateClients env w).2.trace ≠ submitted w.trace →
      (UpdateClients env w).1 = none) := by
  refine ⟨fun aE aM ov h => ?_, fun thr h => AutoUpdateClient_failedSend env thr w h,
    fun height h => UpgradeClients_failedBroadcast env height w h,
    fun h => UpdateClients_submitted env w h⟩
  have hsum := CreateClients_summary env aE aM ov w
  unfold RunSummary at hsum
  cases hr : (CreateClients env aE aM ov w).1 with
  | panicked =>
    rw [hr] at hsum
    exact absurd hsum h
  | returned m e =>
    rw [hr] at hsum
    cases e with
    | none => exact absurd hsum.1 h
    | some err => exact ⟨m, err, rfl⟩

theorem transaction_failures_witness :
    (∃ m e, (CreateClients (exampleEnv chainRejects exampleChain) true true false
      (World.init "" "")).1 = .returned m (some e)) ∧
    (∃ e, (AutoUpdateClient (exampleEnv chainRejects exampleChain) 700
      (World.init "" "")).1.2 = some e) ∧
    (UpdateClients (exampleEnv chainRejects exampleChain) (World.init "" "")).1 = none ∧
    (∃ e, (UpgradeClients (exampleEnv chainBroadcastFails exampleChain) 5
      (World.init "" "")).1 = some e) :=
  ⟨(transaction_failures (exampleEnv chainRejects exampleChain) (World.init "" "")).1
      true true false (by decide),
    (transaction_failures (exampleEnv chainRejects exampleChain) (World.init "" "")).2.1
      700 (by decide),
    (transaction_failures (exampleEnv chainRejects exampleChain) (World.init "" "")).2.2.2
      (by decide),
    (transaction_failures (exampleEnv chainBroadcastFails exampleChain) (World.init "" "")).2.2.1
      5 (by decide)⟩

/-! ### Creation and reuse -/

theorem filter_debugLog (env : Env) (w : World) (side : Side) (p : Event → Bool)
    (hp : p (.log side) = false) :
    (w.debugLog env side).trace.filter p = w.trace.filter p := by
  unfold World.debugLog
  split
  · simp [World.emit, List.filter_append, hp]
  · rfl

/-- The block of an unset identifier, creation path: the world after the block. -/
theorem createClientOn_creates (env : Env) (self other : Side) (selfHeader otherHeader : Header)
    (allowUpdateAfterExpiry allowUpdateAfterMisbehaviour override modified : Bool) (w : World)
    (ubdPeriod : Int) (createMsg : Msg) (res : TxResponse) (events : List TxEvent)
    (more : List (List TxEvent)) (clientID : String)
    (hid : w.clientID self = "")
    (hubd : (env.chain other).queryUnbondingPeriod = .ok ubdPeriod)
    (hcm : (env.chain self).createClient
      (candidateState env other otherHeader ubdPeriod allowUpdateAfterExpiry
          allowUpdateAfterMisbehaviour) otherHeader = .ok createMsg)
    (hsend : (env.chain self).sendMsgs [createMsg] = ⟨res, true, none⟩)
    (hlogs : res.logs = events :: more)
    (hparse : env.parseClientIDFromEvents events = .ok clientID)
    (hno : override = true ∨
      (FindMatchingClient env self other
        (candidateState env other otherHeader ubdPeriod allowUpdateAfterExpiry
          allowUpdateAfterMisbehaviour)
        ((w.debugLog env self).emit (.queryUnbondingPeriod other))).1.2 = false) :
    createClientOn env self other selfHeader otherHeader allowUpdateAfterExpiry
        allowUpdateAfterMisbehaviour override modified w
      = (.next true,
          (((if (!override) = true then FindMatchingClient env self other
              (candidateState env other otherHeader ubdPeriod allowUpdateAfterExpiry
          allowUpdateAfterMisbehaviour)
              ((w.debugLog env self).emit (.queryUnbondingPeriod other))
            else (("", false), (w.debugLog env self).emit (.queryUnbondingPeriod other))).2).emit
            (.sendMsgs self [createMsg] true none)).setClientID self clientID) := by
  unfold createClientOn
  rw [if_pos hid]
  simp only [hubd]
  have hbranch : (!(if (!override) = true then FindMatchingClient env self other
        (candidateState env other otherHeader ubdPeriod allowUpdateAfterExpiry
          allowUpdateAfterMisbehaviour)
        ((w.debugLog env self).emit (.queryUnbondingPeriod other))
      else (("", false), (w.debugLog env self).emit (.queryUnbondingPeriod other))).1.2
        || override) = true := by
    rcases hno with h | h
    · simp [h]
    · cases override
      · simp [h]
      · simp
  rw [if_pos hbranch]
  simp only [hcm, hsend, hlogs, hparse, Bool.not_true, Bool.false_eq_true, if_false]

/-- The block of an unset identifier, reuse path: the world after the block. -/
theorem createClientOn_reuses (env : Env) (self other : Side) (selfHeader otherHeader : Header)
    (allowUpdateAfterExpiry allowUpdateAfterMisbehaviour modified : Bool) (w : World)
    (ubdPeriod : Int)
    (hid : w.clientID self = "")
    (hubd : (env.chain other).queryUnbondingPeriod = .ok ubdPeriod)
    (hfound : (FindMatchingClient env self other
        (candidateState env other otherHeader ubdPeriod allowUpdateAfterExpiry
          allowUpdateAfterMisbehaviour)
        ((w.debugLog env self).emit (.queryUnbondingPeriod other))).1.2 = true) :
    createClientOn env self other selfHeader otherHeader allowUpdateAfterExpiry
        allowUpdateAfterMisbehaviour false modified w
      = (.next true,
          ((FindMatchingClient env self other
              (candidateState env other otherHeader ubdPeriod allowUpdateAfterExpiry
                allowUpdateAfterMisbehaviour)
              ((w.debugLog env self).emit (.queryUnbondingPeriod other))).2.debugLog env
            .src).setClientID self
            (FindMatchingClient env self other
              (candidateState env other otherHeader ubdPeriod allowUpdateAfterExpiry
                allowUpdateAfterMisbehaviour)
              ((w.debugLog env self).emit (.queryUnbondingPeriod other))).1.1) := by
  unfold createClientOn
  rw [if_pos hid]
  simp only [hubd, Bool.not_false, if_true, hfound, Bool.not_true, Bool.or_self,
    Bool.false_eq_true, if_false]

/-- One block of `CreateClients` whose identifier is unset, every query and
submission succeeding: what is submitted and what is written. -/
theorem createClientOn_unset (env : Env) (self other : Side) (selfHeader otherHeader : Header)
    (allowUpdateAfterExpiry allowUpdateAfterMisbehaviour override modified : Bool) (w : World)
    (ubdPeriod : Int) (createMsg : Msg) (res : TxResponse) (events : List TxEvent)
    (more : List (List TxEvent)) (clientID : String)
    (hid : w.clientID self = "")
    (hubd : (env.chain other).queryUnbondingPeriod = .ok ubdPeriod)
    (hcm : (env.chain self).createClient
      (candidateState env other otherHeader ubdPeriod allowUpdateAfterExpiry
          allowUpdateAfterMisbehaviour) otherHeader = .ok createMsg)
    (hsend : (env.chain self).sendMsgs [createMsg] = ⟨res, true, none⟩)
    (hlogs : res.logs = events :: more)
    (hparse : env.parseClientIDFromEvents events = .ok clientID) :
    (createClientOn env self other selfHeader otherHeader allowUpdateAfterExpiry
        allowUpdateAfterMisbehaviour override modified w).1 = .next true ∧
    ((override = true ∨
        (FindMatchingClient env self other
          (candidateState env other otherHeader ubdPeriod allowUpdateAfterExpiry
            allowUpdateAfterMisbehaviour)
          ((w.debugLog env self).emit (.queryUnbondingPeriod other))).1.2 = false) →
      submitted (createClientOn env self other selfHeader otherHeader allowUpdateAfterExpiry
          allowUpdateAfterMisbehaviour override modified w).2.trace
        = submitted w.trace ++ [.sendMsgs self [createMsg] true none] ∧
      (createClientOn env self other selfHeader otherHeader allowUpdateAfterExpiry
          allowUpdateAfterMisbehaviour override modified w).2.clientID self = clientID) ∧
    ((override = false ∧
        (FindMatchingClient env self other
          (candidateState env other otherHeader ubdPeriod allowUpdateAfterExpiry
            allowUpdateAfterMisbehaviour)
          ((w.debugLog env self).emit (.queryUnbondingPeriod other))).1.2 = true) →
      submitted (createClientOn env self other selfHeader otherHeader allowUpdateAfterExpiry
          allowUpdateAfterMisbehaviour override modified w).2.trace = submitted w.trace ∧
      (createClientOn env self other selfHeader otherHeader allowUpdateAfterExpiry
          allowUpdateAfterMisbehaviour override modified w).2.clientID self
        = (FindMatchingClient env self other
            (candidateState env other otherHeader ubdPeriod allowUpdateAfterExpiry
              allowUpdateAfterMisbehaviour)
            ((w.debugLog env self).emit (.queryUnbondingPeriod other))).1.1) ∧
    (override = true →
      clientScans (createClientOn env self other selfHeader otherHeader allowUpdateAfterExpiry
          allowUpdateAfterMisbehaviour override modified w).2.trace = clientScans w.trace) := by
  have hq := found_quiet env self other
    (candidateState env other otherHeader ubdPeriod allowUpdateAfterExpiry
      allowUpdateAfterMisbehaviour) override w
  have hcreate := createClientOn_creates env self other selfHeader otherHeader
    allowUpdateAfterExpiry allowUpdateAfterMisbehaviour override modified w ubdPeriod createMsg
    res events more clientID hid hubd hcm hsend hlogs hparse
  refine ⟨?_, fun hno => ?_, fun hyes => ?_, fun hov => ?_⟩
  · by_cases hno : override = true ∨
        (FindMatchingClient env self other
          (candidateState env other otherHeader ubdPeriod allowUpdateAfterExpiry
            allowUpdateAfterMisbehaviour)
          ((w.debugLog env self).emit (.queryUnbondingPeriod other))).1.2 = false
    · rw [hcreate hno]
    · have hov : override = false := by
        cases override
        · rfl
        · exact absurd (Or.inl rfl) hno
      subst hov
      have hf := Bool.eq_true_of_not_eq_false (fun h => hno (Or.inr h))
      rw [createClientOn_reuses env self other selfHeader otherHeader allowUpdateAfterExpiry
        allowUpdateAfterMisbehaviour modified w ubdPeriod hid hubd hf]
  · rw [hcreate hno]
    refine ⟨?_, clientID_setClientID_self _ _ _⟩
    have hs := hq.filter_eq _ isSendMsgs_of_isQuiet
    simp only [submitted, trace_setClientID, trace_emit, List.filter_append]
    rw [hs]
    simp [Event.isSendMsgs]
  · obtain ⟨hov, hf⟩ := hyes
    subst hov
    rw [createClientOn_reuses env self other selfHeader otherHeader allowUpdateAfterExpiry
      allowUpdateAfterMisbehaviour modified w ubdPeriod hid hubd hf]
    refine ⟨?_, clientID_setClientID_self _ _ _⟩
    have hs := hq.filter_eq _ isSendMsgs_of_isQuiet
    simp only [Bool.not_false, if_true] at hs
    simp only [submitted, trace_setClientID, List.filter_append]
    rw [filter_debugLog env _ .src _ rfl, hs]
    simp [Event.isSendMsgs]
  · subst hov
    rw [hcreate (Or.inl rfl)]
    simp only [clientScans, trace_setClientID, trace_emit, List.filter_append, Bool.not_true,
      Bool.false_eq_true, if_false]
    rw [filter_debugLog env _ self _ rfl]
    simp [Event.isQueryClients]

/-- A call of `CreateClients` with neither identifier set, every query and
submission succeeding, and no reuse (override, or no match on either chain): two
transactions, one per chain, both identifiers written, `modified = true`. -/
theorem CreateClients_neither_configured (env : Env)
    (allowUpdateAfterExpiry allowUpdateAfterMisbehaviour override : Bool) (w : World)
    (srch dsth : Int) (srcUpdateHeader dstUpdateHeader : Header) (ubdSrc ubdDst : Int)
    (msgSrc msgDst : Msg) (resSrc resDst : TxResponse) (eventsSrc eventsDst : List TxEvent)
    (moreSrc moreDst : List (List TxEvent)) (idSrc idDst : String)
    (hsrc : w.srcClientID = "") (hdst : w.dstClientID = "")
    (hs : env.src.queryLatestHeight = .ok srch)
    (hd : env.dst.queryLatestHeight = .ok dsth)
    (hsh : env.src.getLightSignedHeaderAtHeight srch = .ok srcUpdateHeader)
    (hdh : env.dst.getLightSignedHeaderAtHeight dsth = .ok dstUpdateHeader)
    (hubdDst : env.dst.queryUnbondingPeriod = .ok ubdDst)
    (hubdSrc : env.src.queryUnbondingPeriod = .ok ubdSrc)
    (hcmSrc : env.src.createClient
      (candidateState env .dst dstUpdateHeader ubdDst allowUpdateAfterExpiry
        allowUpdateAfterMisbehaviour) dstUpdateHeader = .ok msgSrc)
    (hcmDst : env.dst.createClient
      (candidateState env .src srcUpdateHeader ubdSrc allowUpdateAfterExpiry
        allowUpdateAfterMisbehaviour) srcUpdateHeader = .ok msgDst)
    (hsendSrc : env.src.sendMsgs [msgSrc] = ⟨resSrc, true, none⟩)
    (hsendDst : env.dst.sendMsgs [msgDst] = ⟨resDst, true, none⟩)
    (hlogsSrc : resSrc.logs = eventsSrc :: moreSrc)
    (hlogsDst : resDst.logs = eventsDst :: moreDst)
    (hparseSrc : env.parseClientIDFromEvents eventsSrc = .ok idSrc)
    (hparseDst : env.parseClientIDFromEvents eventsDst = .ok idDst)
    (hno : override = true ∨
      ((∀ w2, (FindMatchingClient env .src .dst
          (candidateState env .dst dstUpdateHeader ubdDst allowUpdateAfterExpiry
            allowUpdateAfterMisbehaviour) w2).1.2 = false) ∧
       (∀ w2, (FindMatchingClient env .dst .src
          (candidateState env .src srcUpdateHeader ubdSrc allowUpdateAfterExpiry
            allowUpdateAfterMisbehaviour) w2).1.2 = false))) :
    (CreateClients env allowUpdateAfterExpiry allowUpdateAfterMisbehaviour override w).1
      = .returned true none ∧
    submitted (CreateClients env allowUpdateAfterExpiry allowUpdateAfterMisbehaviour
        override w).2.trace
      = submitted w.trace ++ [.sendMsgs .src [msgSrc] true none, .sendMsgs .dst [msgDst] true none] ∧
    (CreateClients env allowUpdateAfterExpiry allowUpdateAfterMisbehaviour
      override w).2.srcClientID = idSrc ∧
    (CreateClients env allowUpdateAfterExpiry allowUpdateAfterMisbehaviour
      override w).2.dstClientID = idDst ∧
    (override = true →
      clientScans (CreateClients env allowUpdateAfterExpiry allowUpdateAfterMisbehaviour
        override w).2.trace = clientScans w.trace) := by
  unfold CreateClients QueryLatestHeights fetchSignedHeaders
  simp only [hs, hd, hsh, hdh]
  generalize hw1 : (((w.emit (.queryLatestHeight .src)).emit (.queryLatestHeight .dst)).emit
    (.getLightSignedHeaderAtHeight .src srch)).emit (.getLightSignedHeaderAtHeight .dst dsth) = w1
  have hsub0 : submitted w1.trace = submitted w.trace := by
    rw [← hw1]
    simp [submitted, trace_emit, List.filter_append, Event.isSendMsgs]
  have hscan0 : clientScans w1.trace = clientScans w.trace := by
    rw [← hw1]
    simp [clientScans, trace_emit, List.filter_append, Event.isQueryClients]
  have hid1 : w1.clientID .src = "" := by
    rw [← hw1]
    exact hsrc
  have hdst1 : w1.clientID .dst = "" := by
    rw [← hw1]
    exact hdst
  have o1 := createClientOn_unset env .src .dst srcUpdateHeader dstUpdateHeader
    allowUpdateAfterExpiry allowUpdateAfterMisbehaviour override false w1 ubdDst msgSrc resSrc
    eventsSrc moreSrc idSrc hid1 hubdDst hcmSrc hsendSrc hlogsSrc hparseSrc
  have f1 := (createClientOn_summary env .src .dst srcUpdateHeader dstUpdateHeader
    allowUpdateAfterExpiry allowUpdateAfterMisbehaviour override false w1).1 .dst (by decide)
  rcases hc1 : createClientOn env .src .dst srcUpdateHeader dstUpdateHeader
    allowUpdateAfterExpiry allowUpdateAfterMisbehaviour override false w1 with ⟨st1, w2⟩
  rw [hc1] at o1 f1
  obtain ⟨hst1, hcr1, _, hsc1⟩ := o1
  simp only [] at hst1 hcr1 hsc1 f1
  subst hst1
  obtain ⟨hsub1, hcid1⟩ := hcr1 (hno.imp id (fun h => h.1 _))
  simp only []
  have o2 := createClientOn_unset env .dst .src dstUpdateHeader srcUpdateHeader
    allowUpdateAfterExpiry allowUpdateAfterMisbehaviour override true w2 ubdSrc msgDst resDst
    eventsDst moreDst idDst (f1.trans hdst1) hubdSrc hcmDst hsendDst hlogsDst hparseDst
  have f2 := (createClientOn_summary env .dst .src dstUpdateHeader srcUpdateHeader
    allowUpdateAfterExpiry allowUpdateAfterMisbehaviour override true w2).1 .src (by decide)
  rcases hc2 : createClientOn env .dst .src dstUpdateHeader srcUpdateHeader
    allowUpdateAfterExpiry allowUpdateAfterMisbehaviour override true w2 with ⟨st2, w3⟩
  rw [hc2] at o2 f2
  obtain ⟨hst2, hcr2, _, hsc2⟩ := o2
  simp only [] at hst2 hcr2 hsc2 f2
  subst hst2
  obtain ⟨hsub2, hcid2⟩ := hcr2 (hno.imp id (fun h => h.2 _))
  simp only []
  refine ⟨trivial, ?_, ?_, ?_, fun hov => ?_⟩
  · simp only [submitted, trace_emit, List.filter_append] at hsub0 hsub1 hsub2 ⊢
    rw [hsub2, hsub1, hsub0]
    simp [Event.isSendMsgs]
  · exact f2.trans hcid1
  · exact hcid2
  · simp only [clientScans, trace_emit, List.filter_append] at hscan0 hsc1 hsc2 ⊢
    rw [hsc2 hov, hsc1 hov, hscan0]
    simp [Event.isQueryClients]

/-- The block of an identifier that is set: the existence check and nothing else. -/
theorem createClientOn_configured (env : Env) (self other : Side)
    (selfHeader otherHeader : Header)
    (allowUpdateAfterExpiry allowUpdateAfterMisbehaviour override modified : Bool) (w : World)
    (st : AnyClientState)
    (hid : w.clientID self ≠ "")
    (hcheck : (env.chain self).queryClientStateResponse (w.clientID self) selfHeader.height
      = .ok st) :
    createClientOn env self other selfHeader otherHeader allowUpdateAfterExpiry
        allowUpdateAfterMisbehaviour override modified w
      = (.next modified, w.emit (.queryClientStateResponse self selfHeader.height)) := by
  unfold createClientOn
  rw [if_neg hid]
  simp only [clientID_emit, hcheck]

/-- One block of `CreateClients`, whatever the state of its identifier, each
query and submission it makes succeeding and `FindMatchingClient`, where it is
called, reporting `found`: what the block returns, submits and writes. -/
theorem createClientOn_observed (env : Env) (self other : Side) (selfHeader otherHeader : Header)
    (allowUpdateAfterExpiry allowUpdateAfterMisbehaviour override modified : Bool) (w : World)
    (ubdPeriod : Int) (createMsg : Msg) (res : TxResponse) (events : List TxEvent)
    (more : List (List TxEvent)) (clientID : String) (st : AnyClientState)
    (found : String × Bool)
    (hcheck : w.clientID self ≠ "" →
      (env.chain self).queryClientStateResponse (w.clientID self) selfHeader.height = .ok st)
    (hubd : w.clientID self = "" → (env.chain other).queryUnbondingPeriod = .ok ubdPeriod)
    (hfm : w.clientID self = "" → override = false →
      ∀ w2, (FindMatchingClient env self other
        (candidateState env other otherHeader ubdPeriod allowUpdateAfterExpiry
          allowUpdateAfterMisbehaviour) w2).1 = found)
    (hcreate : w.clientID self = "" → (override = true ∨ found.2 = false) →
      (env.chain self).createClient
        (candidateState env other otherHeader ubdPeriod allowUpdateAfterExpiry
          allowUpdateAfterMisbehaviour) otherHeader = .ok createMsg ∧
      (env.chain self).sendMsgs [createMsg] = ⟨res, true, none⟩ ∧
      res.logs = events :: more ∧
      env.parseClientIDFromEvents events = .ok clientID) :
    (createClientOn env self other selfHeader otherHeader allowUpdateAfterExpiry
        allowUpdateAfterMisbehaviour override modified w).1
      = .next (modified || decide (w.clientID self = "")) ∧
    submitted (createClientOn env self other selfHeader otherHeader allowUpdateAfterExpiry
        allowUpdateAfterMisbehaviour override modified w).2.trace
      = submitted w.trace ++
        (if w.clientID self = "" ∧ (override = true ∨ found.2 = false)
          then [.sendMsgs self [createMsg] true none] else []) ∧
    (createClientOn env self other selfHeader otherHeader allowUpdateAfterExpiry
        allowUpdateAfterMisbehaviour override modified w).2.clientID self
      = (if w.clientID self = "" then
          (if override = true ∨ found.2 = false then clientID else found.1)
        else w.clientID self) ∧
    (∀ s, s ≠ self →
      (createClientOn env self other selfHeader otherHeader allowUpdateAfterExpiry
        allowUpdateAfterMisbehaviour override modified w).2.clientID s = w.clientID s) ∧
    (override = true →
      clientScans (createClientOn env self other selfHeader otherHeader allowUpdateAfterExpiry
        allowUpdateAfterMisbehaviour override modified w).2.trace = clientScans w.trace) := by
  have hframe := (createClientOn_summary env self other selfHeader otherHeader
    allowUpdateAfterExpiry allowUpdateAfterMisbehaviour override modified w).1
  by_cases hid : w.clientID self = ""
  · by_cases hdec : override = true ∨ found.2 = false
    · obtain ⟨hcm, hsend, hlogs, hparse⟩ := hcreate hid hdec
      have hno : override = true ∨
          (FindMatchingClient env self other
            (candidateState env other otherHeader ubdPeriod allowUpdateAfterExpiry
              allowUpdateAfterMisbehaviour)
            ((w.debugLog env self).emit (.queryUnbondingPeriod other))).1.2 = false := by
        cases override with
        | true => exact Or.inl rfl
        | false =>
          refine Or.inr ?_
          rw [hfm hid rfl]
          rcases hdec with h | h
          · cases h
          · exact h
      obtain ⟨o1, o2, _, o4⟩ := createClientOn_unset env self other selfHeader otherHeader
        allowUpdateAfterExpiry allowUpdateAfterMisbehaviour override modified w ubdPeriod
        createMsg res events more clientID hid (hubd hid) hcm hsend hlogs hparse
      obtain ⟨osub, oid⟩ := o2 hno
      refine ⟨?_, ?_, ?_, hframe, o4⟩
      · rw [o1]
        simp [hid]
      · rw [osub, if_pos ⟨hid, hdec⟩]
      · rw [oid, if_pos hid, if_pos hdec]
    · have hov : override = false := by
        cases override with
        | true => exact absurd (Or.inl rfl) hdec
        | false => rfl
      have hf2 : found.2 = true := Bool.eq_true_of_not_eq_false (fun h => hdec (Or.inr h))
      subst hov
      have hfw := hfm hid rfl ((w.debugLog env self).emit (.queryUnbondingPeriod other))
      have hq := found_quiet env self other
        (candidateState env other otherHeader ubdPeriod allowUpdateAfterExpiry
          allowUpdateAfterMisbehaviour) false w
      have hs := hq.filter_eq _ isSendMsgs_of_isQuiet
      simp only [Bool.not_false, if_true] at hs
      have hre := createClientOn_reuses env self other selfHeader otherHeader
        allowUpdateAfterExpiry allowUpdateAfterMisbehaviour modified w ubdPeriod hid (hubd hid)
        (by rw [hfw]; exact hf2)
      refine ⟨?_, ?_, ?_, hframe, fun h => by cases h⟩
      · rw [hre]
        simp [hid]
      · rw [hre, if_neg (fun h => hdec h.2)]
        simp only [submitted, trace_setClientID, List.filter_append]
        rw [filter_debugLog env _ .src _ rfl, hs]
        simp [Event.isSendMsgs]
      · rw [hre, if_pos hid, if_neg hdec, clientID_setClientID_self, hfw]
  · have hre := createClientOn_configured env self other selfHeader otherHeader
      allowUpdateAfterExpiry allowUpdateAfterMisbehaviour override modified w st hid (hcheck hid)
    refine ⟨?_, ?_, ?_, hframe, fun _ => ?_⟩
    · rw [hre]
      simp [hid]
    · rw [hre, if_neg (fun h => hid h.1)]
      simp [submitted, trace_emit, List.filter_append, Event.isSendMsgs]
    · rw [hre, if_neg hid, clientID_emit]
    · rw [hre]
      simp [clientScans, trace_emit, List.filter_append, Event.isQueryClients]

/-- A whole call of `CreateClients`, whatever the state of the two identifiers,
each query and submission made succeeding and `FindMatchingClient`, where it is
called, reporting `foundSrc` on the source chain and `foundDst` on the
destination chain: what the call returns, submits and writes, direction by
direction. -/
theorem CreateClients_each_direction (env : Env)
    (allowUpdateAfterExpiry allowUpdateAfterMisbehaviour override : Bool) (w : World)
    (srch dsth : Int) (srcUpdateHeader dstUpdateHeader : Header) (ubdSrc ubdDst : Int)
    (msgSrc msgDst : Msg) (resSrc resDst : TxResponse) (eventsSrc eventsDst : List TxEvent)
    (moreSrc moreDst : List (List TxEvent)) (idSrc idDst : String)
    (stSrc stDst : AnyClientState) (foundSrc foundDst : String × Bool)
    (hs : env.src.queryLatestHeight = .ok srch)
    (hd : env.dst.queryLatestHeight = .ok dsth)
    (hsh : env.src.getLightSignedHeaderAtHeight srch = .ok srcUpdateHeader)
    (hdh : env.dst.getLightSignedHeaderAtHeight dsth = .ok dstUpdateHeader)
    (hcheckSrc : w.srcClientID ≠ "" →
      env.src.queryClientStateResponse w.srcClientID srcUpdateHeader.height = .ok stSrc)
    (hubdDst : w.srcClientID = "" → env.dst.queryUnbondingPeriod = .ok ubdDst)
    (hfmSrc : w.srcClientID = "" → override = false →
      ∀ w2, (FindMatchingClient env .src .dst
        (candidateState env .dst dstUpdateHeader ubdDst allowUpdateAfterExpiry
          allowUpdateAfterMisbehaviour) w2).1 = foundSrc)
    (hcreateSrc : w.srcClientID = "" → (override = true ∨ foundSrc.2 = false) →
      env.src.createClient
        (candidateState env .dst dstUpdateHeader ubdDst allowUpdateAfterExpiry
          allowUpdateAfterMisbehaviour) dstUpdateHeader = .ok msgSrc ∧
      env.src.sendMsgs [msgSrc] = ⟨resSrc, true, none⟩ ∧
      resSrc.logs = eventsSrc :: moreSrc ∧
      env.parseClientIDFromEvents eventsSrc = .ok idSrc)
    (hcheckDst : w.dstClientID ≠ "" →
      env.dst.queryClientStateResponse w.dstClientID dstUpdateHeader.height = .ok stDst)
    (hubdSrc : w.dstClientID = "" → env.src.queryUnbondingPeriod = .ok ubdSrc)
    (hfmDst : w.dstClientID = "" → override = false →
      ∀ w2, (FindMatchingClient env .dst .src
        (candidateState env .src srcUpdateHeader ubdSrc allowUpdateAfterExpiry
          allowUpdateAfterMisbehaviour) w2).1 = foundDst)
    (hcreateDst : w.dstClientID = "" → (override = true ∨ foundDst.2 = false) →
      env.dst.createClient
        (candidateState env .src srcUpdateHeader ubdSrc allowUpdateAfterExpiry
          allowUpdateAfterMisbehaviour) srcUpdateHeader = .ok msgDst ∧
      env.dst.sendMsgs [msgDst] = ⟨resDst, true, none⟩ ∧
      resDst.logs = eventsDst :: moreDst ∧
      env.parseClientIDFromEvents eventsDst = .ok idDst) :
    (CreateClients env allowUpdateAfterExpiry allowUpdateAfterMisbehaviour override w).1
      = .returned (decide (w.srcClientID = "") || decide (w.dstClientID = "")) none ∧
    submitted (CreateClients env allowUpdateAfterExpiry allowUpdateAfterMisbehaviour
        override w).2.trace
      = submitted w.trace ++
        (if w.srcClientID = "" ∧ (override = true ∨ foundSrc.2 = false)
          then [.sendMsgs .src [msgSrc] true none] else []) ++
        (if w.dstClientID = "" ∧ (override = true ∨ foundDst.2 = false)
          then [.sendMsgs .dst [msgDst] true none] else []) ∧
    (CreateClients env allowUpdateAfterExpiry allowUpdateAfterMisbehaviour
        override w).2.srcClientID
      = (if w.srcClientID = "" then
          (if override = true ∨ foundSrc.2 = false then idSrc else foundSrc.1)
        else w.srcClientID) ∧
    (CreateClients env allowUpdateAfterExpiry allowUpdateAfterMisbehaviour
        override w).2.dstClientID
      = (if w.dstClientID = "" then
          (if override = true ∨ foundDst.2 = false then idDst else foundDst.1)
        else w.dstClientID) ∧
    (override = true →
      clientScans (CreateClients env allowUpdateAfterExpiry allowUpdateAfterMisbehaviour
        override w).2.trace = clientScans w.trace) := by
  unfold CreateClients QueryLatestHeights fetchSignedHeaders
  simp only [hs, hd, hsh, hdh]
  generalize hw1 : (((w.emit (.queryLatestHeight .src)).emit (.queryLatestHeight .dst)).emit
    (.getLightSignedHeaderAtHeight .src srch)).emit (.getLightSignedHeaderAtHeight .dst dsth) = w1
  have hsub0 : submitted w1.trace = submitted w.trace := by
    rw [← hw1]
    simp [submitted, trace_emit, List.filter_append, Event.isSendMsgs]
  have hscan0 : clientScans w1.trace = clientScans w.trace := by
    rw [← hw1]
    simp [clientScans, trace_emit, List.filter_append, Event.isQueryClients]
  have e1 : w1.clientID .src = w.srcClientID := by
    rw [← hw1]
    rfl
  have e1d : w1.clientID .dst = w.dstClientID := by
    rw [← hw1]
    rfl
  have o1 := createClientOn_observed env .src .dst srcUpdateHeader dstUpdateHeader
    allowUpdateAfterExpiry allowUpdateAfterMisbehaviour override false w1 ubdDst msgSrc resSrc
    eventsSrc moreSrc idSrc stSrc foundSrc
    (fun h => by rw [e1] at h ⊢; exact hcheckSrc h)
    (fun h => hubdDst (e1 ▸ h))
    (fun h => hfmSrc (e1 ▸ h))
    (fun h => hcreateSrc (e1 ▸ h))
  rcases hc1 : createClientOn env .src .dst srcUpdateHeader dstUpdateHeader
    allowUpdateAfterExpiry allowUpdateAfterMisbehaviour override false w1 with ⟨st1, w2⟩
  rw [hc1] at o1
  obtain ⟨h1r, h1s, h1id, h1f, h1c⟩ := o1
  simp only [] at h1r h1s h1id h1f h1c
  subst h1r
  simp only []
  have e2d : w2.clientID .dst = w.dstClientID := (h1f .dst (by decide)).trans e1d
  have o2 := createClientOn_observed env .dst .src dstUpdateHeader srcUpdateHeader
    allowUpdateAfterExpiry allowUpdateAfterMisbehaviour override
    (false || decide (w1.clientID .src = "")) w2 ubdSrc msgDst resDst
    eventsDst moreDst idDst stDst foundDst
    (fun h => by rw [e2d] at h ⊢; exact hcheckDst h)
    (fun h => hubdSrc (e2d ▸ h))
    (fun h => hfmDst (e2d ▸ h))
    (fun h => hcreateDst (e2d ▸ h))
  rcases hc2 : createClientOn env .dst .src dstUpdateHeader srcUpdateHeader
    allowUpdateAfterExpiry allowUpdateAfterMisbehaviour override
    (false || decide (w1.clientID .src = "")) w2 with ⟨st2, w3⟩
  rw [hc2] at o2
  obtain ⟨h2r, h2s, h2id, h2f, h2c⟩ := o2
  simp only [] at h2r h2s h2id h2f h2c
  subst h2r
  simp only []
  rw [e1] at h1s h1id
  rw [e2d] at h2s h2id
  refine ⟨?_, ?_, ?_, ?_, fun hov => ?_⟩
  · rw [e1, e2d]
    simp
  · simp only [submitted, trace_emit, List.filter_append] at hsub0 h1s h2s ⊢
    rw [h2s, h1s, hsub0]
    simp [Event.isSendMsgs]
  · exact (h2f .src (by decide)).trans h1id
  · exact h2id
  · simp only [clientScans, trace_emit, List.filter_append] at hscan0 h1c h2c ⊢
    rw [h2c hov, h1c hov, hscan0]
    simp [Event.isQueryClients]

/-- C4: in `CreateClients`, for each direction whose `PathEnd` client identifier is
unset and whose queries and submission succeed, a create-client transaction is
submitted on that chain exactly when `override` is true or `FindMatchingClient`
reports no match, and the identifier is then the one parsed from the events of
the first message; when `override` is false and a match is reported, nothing is
submitted on that chain and the identifier is the matched one; under `override`
no client is scanned. The third statement says so of a whole call, whatever the
state of the other identifier; the first says it of one block; the second is the
call with neither chain configured and no reuse: exactly two transactions, one
per chain, both identifiers written and `modified` true. -/
theorem CreateClients_create_or_reuse :
    (∀ (env : Env) (self other : Side) (selfHeader otherHeader : Header)
    (allowUpdateAfterExpiry allowUpdateAfterMisbehaviour override modified : Bool) (w : World)
    (ubdPeriod : Int) (createMsg : Msg) (res : TxResponse) (events : List TxEvent)
    (more : List (List TxEvent)) (clientID : String)
    (_hid : w.clientID self = "")
    (_hubd : (env.chain other).queryUnbondingPeriod = .ok ubdPeriod)
    (_hcm : (env.chain self).createClient
      (candidateState env other otherHeader ubdPeriod allowUpdateAfterExpiry
          allowUpdateAfterMisbehaviour) otherHeader = .ok createMsg)
    (_hsend : (env.chain self).sendMsgs [createMsg] = ⟨res, true, none⟩)
    (_hlogs : res.logs = events :: more)
    (_hparse : env.parseClientIDFromEvents events = .ok clientID),

    (createClientOn env self other selfHeader otherHeader allowUpdateAfterExpiry
        allowUpdateAfterMisbehaviour override modified w).1 = .next true ∧
    ((override = true ∨
        (FindMatchingClient env self other
          (candidateState env other otherHeader ubdPeriod allowUpdateAfterExpiry
            allowUpdateAfterMisbehaviour)
          ((w.debugLog env self).emit (.queryUnbondingPeriod other))).1.2 = false) →
      submitted (createClientOn env self other selfHeader otherHeader allowUpdateAfterExpiry
          allowUpdateAfterMisbehaviour override modified w).2.trace
        = submitted w.trace ++ [.sendMsgs self [createMsg] true none] ∧
      (createClientOn env self other selfHeader otherHeader allowUpdateAfterExpiry
          allowUpdateAfterMisbehaviour override modified w).2.clientID self = clientID) ∧
    ((override = false ∧
        (FindMatchingClient env self other
          (candidateState env other otherHeader ubdPeriod allowUpdateAfterExpiry
            allowUpdateAfterMisbehaviour)
          ((w.debugLog env self).emit (.queryUnbondingPeriod other))).1.2 = true) →
      submitted (createClientOn env self other selfHeader otherHeader allowUpdateAfterExpiry
          allowUpdateAfterMisbehaviour override modified w).2.trace = submitted w.trace ∧
      (createClientOn env self other selfHeader otherHeader allowUpdateAfterExpiry
          allowUpdateAfterMisbehaviour override modified w).2.clientID self
        = (FindMatchingClient env self other
            (candidateState env other otherHeader ubdPeriod allowUpdateAfterExpiry
              allowUpdateAfterMisbehaviour)
            ((w.debugLog env self).emit (.queryUnbondingPeriod other))).1.1) ∧
    (override = true →
      clientScans (createClientOn env self other selfHeader otherHeader allowUpdateAfterExpiry
          allowUpdateAfterMisbehaviour override modified w).2.trace = clientScans w.trace)) ∧
    (∀ (env : Env)
    (allowUpdateAfterExpiry allowUpdateAfterMisbehaviour override : Bool) (w : World)
    (srch dsth : Int) (srcUpdateHeader dstUpdateHeader : Header) (ubdSrc ubdDst : Int)
    (msgSrc msgDst : Msg) (resSrc resDst : TxResponse) (eventsSrc eventsDst : List TxEvent)
    (moreSrc moreDst : List (List TxEvent)) (idSrc idDst : String)
    (_hsrc : w.srcClientID = "") (_hdst : w.dstClientID = "")
    (_hs : env.src.queryLatestHeight = .ok srch)
    (_hd : env.dst.queryLatestHeight = .ok dsth)
    (_hsh : env.src.getLightSignedHeaderAtHeight srch = .ok srcUpdateHeader)
    (_hdh : env.dst.getLightSignedHeaderAtHeight dsth = .ok dstUpdateHeader)
    (_hubdDst : env.dst.queryUnbondingPeriod = .ok ubdDst)
    (_hubdSrc : env.src.queryUnbondingPeriod = .ok ubdSrc)
    (_hcmSrc : env.src.createClient
      (candidateState env .dst dstUpdateHeader ubdDst allowUpdateAfterExpiry
        allowUpdateAfterMisbehaviour) dstUpdateHeader = .ok msgSrc)
    (_hcmDst : env.dst.createClient
      (candidateState env .src srcUpdateHeader ubdSrc allowUpdateAfterExpiry
        allowUpdateAfterMisbehaviour) srcUpdateHeader = .ok msgDst)
    (_hsendSrc : env.src.sendMsgs [msgSrc] = ⟨resSrc, true, none⟩)
    (_hsendDst : env.dst.sendMsgs [msgDst] = ⟨resDst, true, none⟩)
    (_hlogsSrc : resSrc.logs = eventsSrc :: moreSrc)
    (_hlogsDst : resDst.logs = eventsDst :: moreDst)
    (_hparseSrc : env.parseClientIDFromEvents eventsSrc = .ok idSrc)
    (_hparseDst : env.parseClientIDFromEvents eventsDst = .ok idDst)
    (_hno : override = true ∨
      ((∀ w2, (FindMatchingClient env .src .dst
          (candidateState env .dst dstUpdateHeader ubdDst allowUpdateAfterExpiry
            allowUpdateAfterMisbehaviour) w2).1.2 = false) ∧
       (∀ w2, (FindMatchingClient env .dst .src
          (candidateState env .src srcUpdateHeader ubdSrc allowUpdateAfterExpiry
            allowUpdateAfterMisbehaviour) w2).1.2 = false))),

    (CreateClients env allowUpdateAfterExpiry allowUpdateAfterMisbehaviour override w).1
      = .returned true none ∧
    submitted (CreateClients env allowUpdateAfterExpiry allowUpdateAfterMisbehaviour
        override w).2.trace
      = submitted w.trace ++ [.sendMsgs .src [msgSrc] true none, .sendMsgs .dst [msgDst] true none] ∧
    (CreateClients env allowUpdateAfterExpiry allowUpdateAfterMisbehaviour
      override w).2.srcClientID = idSrc ∧
    (CreateClients env allowUpdateAfterExpiry allowUpdateAfterMisbehaviour
      override w).2.dstClientID = idDst ∧
    (override = true →
      clientScans (CreateClients env allowUpdateAfterExpiry allowUpdateAfterMisbehaviour
        override w).2.trace = clientScans w.trace)) ∧
    (∀ (env : Env)
    (allowUpdateAfterExpiry allowUpdateAfterMisbehaviour override : Bool) (w : World)
    (srch dsth : Int) (srcUpdateHeader dstUpdateHeader : Header) (ubdSrc ubdDst : Int)
    (msgSrc msgDst : Msg) (resSrc resDst : TxResponse) (eventsSrc eventsDst : List TxEvent)
    (moreSrc moreDst : List (List TxEvent)) (idSrc idDst : String)
    (stSrc stDst : AnyClientState) (foundSrc foundDst : String × Bool)
    (_hs : env.src.queryLatestHeight = .ok srch)
    (_hd : env.dst.queryLatestHeight = .ok dsth)
    (_hsh : env.src.getLightSignedHeaderAtHeight srch = .ok srcUpdateHeader)
    (_hdh : env.dst.getLightSignedHeaderAtHeight dsth = .ok dstUpdateHeader)
    (_hcheckSrc : w.srcClientID ≠ "" →
      env.src.queryClientStateResponse w.srcClientID srcUpdateHeader.height = .ok stSrc)
    (_hubdDst : w.srcClientID = "" → env.dst.queryUnbondingPeriod = .ok ubdDst)
    (_hfmSrc : w.srcClientID = "" → override = false →
      ∀ w2, (FindMatchingClient env .src .dst
        (candidateState env .dst dstUpdateHeader ubdDst allowUpdateAfterExpiry
          allowUpdateAfterMisbehaviour) w2).1 = foundSrc)
    (_hcreateSrc : w.srcClientID = "" → (override = true ∨ foundSrc.2 = false) →
      env.src.createClient
        (candidateState env .dst dstUpdateHeader ubdDst allowUpdateAfterExpiry
          allowUpdateAfterMisbehaviour) dstUpdateHeader = .ok msgSrc ∧
      env.src.sendMsgs [msgSrc] = ⟨resSrc, true, none⟩ ∧
      resSrc.logs = eventsSrc :: moreSrc ∧
      env.parseClientIDFromEvents eventsSrc = .ok idSrc)
    (_hcheckDst : w.dstClientID ≠ "" →
      env.dst.queryClientStateResponse w.dstClientID dstUpdateHeader.height = .ok stDst)
    (_hubdSrc : w.dstClientID = "" → env.src.queryUnbondingPeriod = .ok ubdSrc)
    (_hfmDst : w.dstClientID = "" → override = false →
      ∀ w2, (FindMatchingClient env .dst .src
        (candidateState env .src srcUpdateHeader ubdSrc allowUpdateAfterExpiry
          allowUpdateAfterMisbehaviour) w2).1 = foundDst)
    (_hcreateDst : w.dstClientID = "" → (override = true ∨ foundDst.2 = false) →
      env.dst.createClient
        (candidateState env .src srcUpdateHeader ubdSrc allowUpdateAfterExpiry
          allowUpdateAfterMisbehaviour) srcUpdateHeader = .ok msgDst ∧
      env.dst.sendMsgs [msgDst] = ⟨resDst, true, none⟩ ∧
      resDst.logs = eventsDst :: moreDst ∧
      env.parseClientIDFromEvents eventsDst = .ok idDst),

    (CreateClients env allowUpdateAfterExpiry allowUpdateAfterMisbehaviour override w).1
      = .returned (decide (w.srcClientID = "") || decide (w.dstClientID = "")) none ∧
    submitted (CreateClients env allowUpdateAfterExpiry allowUpdateAfterMisbehaviour
        override w).2.trace
      = submitted w.trace ++
        (if w.srcClientID = "" ∧ (override = true ∨ foundSrc.2 = false)
          then [.sendMsgs .src [msgSrc] true none] else []) ++
        (if w.dstClientID = "" ∧ (override = true ∨ foundDst.2 = false)
          then [.sendMsgs .dst [msgDst] true none] else []) ∧
    (CreateClients env allowUpdateAfterExpiry allowUpdateAfterMisbehaviour
        override w).2.srcClientID
      = (if w.srcClientID = "" then
          (if override = true ∨ foundSrc.2 = false then idSrc else foundSrc.1)
        else w.srcClientID) ∧
    (CreateClients env allowUpdateAfterExpiry allowUpdateAfterMisbehaviour
        override w).2.dstClientID
      = (if w.dstClientID = "" then
          (if override = true ∨ foundDst.2 = false then idDst else foundDst.1)
        else w.dstClientID) ∧
    (override = true →
      clientScans (CreateClients env allowUpdateAfterExpiry allowUpdateAfterMisbehaviour
        override w).2.trace = clientScans w.trace)) :=
  ⟨createClientOn_unset, CreateClients_neither_configured, CreateClients_each_direction⟩

theorem CreateClients_create_or_reuse_witness :
    ((CreateClients (exampleEnv chainOnlyMatch exampleChain) true true false
        (World.init "" "")).1 = .returned true none ∧
      submitted (CreateClients (exampleEnv chainOnlyMatch exampleChain) true true false
          (World.init "" "")).2.trace
        = [.sendMsgs .dst [.createClient
              (candidateState (exampleEnv chainOnlyMatch exampleChain) .src exampleHeader 2000
                true true) exampleHeader "relayer"] true none] ∧
      (CreateClients (exampleEnv chainOnlyMatch exampleChain) true true false
        (World.init "" "")).2.srcClientID = "07-tendermint-1" ∧
      (CreateClients (exampleEnv chainOnlyMatch exampleChain) true true false
        (World.init "" "")).2.dstClientID = "07-tendermint-9" ∧
      (false = true →
        clientScans (CreateClients (exampleEnv chainOnlyMatch exampleChain) true true false
          (World.init "" "")).2.trace = clientScans (World.init "" "").trace)) ∧
    ((CreateClients (exampleEnv chainOnlyMatch exampleChain) true true true
        (World.init "" "07-tendermint-4")).1 = .returned true none ∧
      submitted (CreateClients (exampleEnv chainOnlyMatch exampleChain) true true true
          (World.init "" "07-tendermint-4")).2.trace
        = [.sendMsgs .src [.createClient
              (candidateState (exampleEnv chainOnlyMatch exampleChain) .dst exampleHeader 2000
                true true) exampleHeader "relayer"] true none] ∧
      (CreateClients (exampleEnv chainOnlyMatch exampleChain) true true true
        (World.init "" "07-tendermint-4")).2.srcClientID = "07-tendermint-9" ∧
      (CreateClients (exampleEnv chainOnlyMatch exampleChain) true true true
        (World.init "" "07-tendermint-4")).2.dstClientID = "07-tendermint-4" ∧
      (true = true →
        clientScans (CreateClients (exampleEnv chainOnlyMatch exampleChain) true true true
          (World.init "" "07-tendermint-4")).2.trace
          = clientScans (World.init "" "07-tendermint-4").trace)) :=
  ⟨CreateClients_create_or_reuse.2.2 (exampleEnv chainOnlyMatch exampleChain) true true false
      (World.init "" "") 5 5 exampleHeader exampleHeader 2000 2000
      (.createClient (candidateState (exampleEnv chainOnlyMatch exampleChain) .dst exampleHeader
        2000 true true) exampleHeader "relayer")
      (.createClient (candidateState (exampleEnv chainOnlyMatch exampleChain) .src exampleHeader
        2000 true true) exampleHeader "relayer")
      exampleResponse exampleResponse
      [⟨"create_client", [("client_id", "07-tendermint-9")]⟩]
      [⟨"create_client", [("client_id", "07-tendermint-9")]⟩] [] []
      "07-tendermint-9" "07-tendermint-9"
      (.tendermint exampleExisting) (.tendermint exampleExisting)
      ("07-tendermint-1", true) ("", false)
      rfl rfl rfl rfl
      (fun h => absurd rfl h) (fun _ => rfl) (fun _ _ _ => rfl)
      (fun _ h => absurd h (by decide))
      (fun h => absurd rfl h) (fun _ => rfl) (fun _ _ _ => rfl)
      (fun _ _ => ⟨rfl, rfl, rfl, rfl⟩),
    CreateClients_create_or_reuse.2.2 (exampleEnv chainOnlyMatch exampleChain) true true true
      (World.init "" "07-tendermint-4") 5 5 exampleHeader exampleHeader 2000 2000
      (.createClient (candidateState (exampleEnv chainOnlyMatch exampleChain) .dst exampleHeader
        2000 true true) exampleHeader "relayer")
      (.createClient (candidateState (exampleEnv chainOnlyMatch exampleChain) .src exampleHeader
        2000 true true) exampleHeader "relayer")
      exampleResponse exampleResponse
      [⟨"create_client", [("client_id", "07-tendermint-9")]⟩]
      [⟨"create_client", [("client_id", "07-tendermint-9")]⟩] [] []
      "07-tendermint-9" "07-tendermint-9"
      (.tendermint exampleExisting) (.tendermint exampleExisting)
      ("07-tendermint-1", true) ("", false)
      rfl rfl rfl rfl
      (fun h => absurd rfl h) (fun _ => rfl) (fun _ h => absurd h (by decide))
      (fun _ _ => ⟨rfl, rfl, rfl, rfl⟩)
      (fun _ => rfl) (fun h => absurd h (by decide)) (fun h => absurd h (by decide))
      (fun h => absurd h (by decide))⟩

end Relayer
